import Mathlib

/-!
Shallow embedding of the OpenTricklerAI firmware-update and tuning core,
translated from the C sources under `src/`:

* `src/bootloader/metadata.c`, `metadata.h`, `flash_partitions.h` — the
  double-buffered metadata store (sequence numbers modelled as `Nat` with an
  explicit `% 2^32`, byte fields with `% 256`; the on-flash record is
  serialized field by field to a byte list, exactly following the packed
  struct layout, and the metadata CRC covers the 240 body bytes).
* `src/firmware_update/flash_ops.c` — the flash abstraction (memory as a
  function from offsets to bytes).
* `src/ai_tuning.c` — the two-phase tuning session.  C `float` arithmetic is
  modelled with exact rationals `ℚ`; the branch structure is transcribed
  verbatim.
* `src/charge_mode.cpp` — the PID charge loop skeleton and the telemetry
  timing construction (FreeRTOS ticks modelled as `Nat`).
* `src/firmware_update/firmware_download.c` — the HTTP header-parsing step
  of the TCP receive callback, with the firmware-manager calls it makes
  recorded as a trace.

A crash during a flash sector erase or page program is modelled by the
affected sector becoming `torn`, a state that fails validation (the
standard idealisation that a torn write does not accidentally produce a
record whose CRC-32 validates).
-/

namespace OpenTrickler

/-! ### CRC32 engine

Modelled from the spec: `crc32.c` is not in the source tree (only
`crc32.h` is), so the computation is taken from the header and spec §4.1:
standard reflected CRC-32, polynomial `0xEDB88320`, initial value
`0xFFFFFFFF`, final xor `0xFFFFFFFF`, processing one byte at a time with
eight shift/xor rounds. -/

def crc32_round (c : Nat) : Nat :=
  if c % 2 = 1 then (c / 2) ^^^ 0xEDB88320 else c / 2

def crc32_byte (c b : Nat) : Nat :=
  Nat.iterate crc32_round 8 (c ^^^ b)

def crc32_calculate (data : List Nat) : Nat :=
  (data.foldl crc32_byte 0xFFFFFFFF) ^^^ 0xFFFFFFFF

/-! ### Metadata record (`metadata.h`) -/

def METADATA_MAGIC : Nat := 0x4F544D55
def METADATA_VERSION : Nat := 1
def MAX_BOOT_ATTEMPTS : Nat := 3
def VERSION_STRING_LENGTH : Nat := 32
def BANK_VALID : Nat := 0xFF
def BANK_INVALID : Nat := 0x00
def UPDATE_IN_PROGRESS : Nat := 0xFF
def UPDATE_IDLE : Nat := 0x00

/-- `firmware_bank_t`: `BANK_A = 0`, `BANK_B = 1`, `BANK_UNKNOWN = 0xFF`,
kept as plain `Nat` values as in the C enum. -/
def BANK_A : Nat := 0
def BANK_B : Nat := 1
def BANK_UNKNOWN : Nat := 0xFF

/-- `bank_get_opposite` from `flash_partitions.h`. -/
def bank_get_opposite (b : Nat) : Nat :=
  if b = BANK_A then BANK_B else if b = BANK_B then BANK_A else BANK_UNKNOWN

/-- `firmware_metadata_t` from `metadata.h` (packed struct; the padding
bytes, always zero in every record the code constructs, are emitted by the
serializer rather than stored). -/
structure firmware_metadata_t where
  magic : Nat
  version : Nat
  sequence : Nat
  active_bank : Nat
  bank_a_crc32 : Nat
  bank_a_size : Nat
  bank_a_version : List Nat
  bank_a_boot_count : Nat
  bank_a_valid : Nat
  bank_b_crc32 : Nat
  bank_b_size : Nat
  bank_b_version : List Nat
  bank_b_boot_count : Nat
  bank_b_valid : Nat
  update_in_progress : Nat
  update_target : Nat
  rollback_occurred : Nat
  rollback_count : Nat
  metadata_crc32 : Nat
  deriving DecidableEq, Repr

/-- Little-endian serialization of a 32-bit field, as laid out in flash. -/
def u32le (x : Nat) : List Nat :=
  [x % 256, x / 256 % 256, x / 65536 % 256, x / 16777216 % 256]

/-- A 32-byte version-string buffer: the stored bytes padded with NULs. -/
def verbytes (v : List Nat) : List Nat :=
  (v.take 32).map (· % 256) ++ List.replicate (32 - (v.take 32).length) 0

/-- The 240 bytes of `firmware_metadata_t` that precede the final
`metadata_crc32` field, in packed little-endian layout (`metadata.h`
lines 49–91): header, active bank + 3 pad bytes, bank A block
(crc, size, 32-byte version, boot count, valid, 2 pad), bank B block,
update state + 2 pad, rollback bytes + 2 pad, 128 reserved bytes. -/
def serializeBody (r : firmware_metadata_t) : List Nat :=
  u32le r.magic ++ u32le r.version ++ u32le r.sequence ++
  [r.active_bank % 256, 0, 0, 0] ++
  u32le r.bank_a_crc32 ++ u32le r.bank_a_size ++ verbytes r.bank_a_version ++
  [r.bank_a_boot_count % 256, r.bank_a_valid % 256, 0, 0] ++
  u32le r.bank_b_crc32 ++ u32le r.bank_b_size ++ verbytes r.bank_b_version ++
  [r.bank_b_boot_count % 256, r.bank_b_valid % 256, 0, 0] ++
  [r.update_in_progress % 256, r.update_target % 256, 0, 0] ++
  [r.rollback_occurred % 256, r.rollback_count % 256, 0, 0] ++
  List.replicate 128 0

/-- `metadata_calculate_crc32`: CRC-32 of everything except the final crc
field itself (`metadata.c` lines 80–88). -/
def metadata_calculate_crc32 (r : firmware_metadata_t) : Nat :=
  crc32_calculate (serializeBody r)

/-- `metadata_validate` (`metadata.c` lines 90–117): magic, version, CRC
and active-bank checks. -/
def metadata_validate (r : firmware_metadata_t) : Bool :=
  (r.magic == METADATA_MAGIC) &&
  (r.version == METADATA_VERSION) &&
  (metadata_calculate_crc32 r == r.metadata_crc32) &&
  (r.active_bank == BANK_A || r.active_bank == BANK_B)

/-- Store the recomputed CRC in the record, as done before every program
operation. -/
def setCrc (r : firmware_metadata_t) : firmware_metadata_t :=
  { r with metadata_crc32 := metadata_calculate_crc32 r }

/-- Byte string of `"factory"`, the default bank-A version string. -/
def factoryVersion : List Nat := [102, 97, 99, 116, 111, 114, 121]

/-- `metadata_init_defaults` (`metadata.c` lines 119–155) applied to an
all-zero record: magic/version/sequence 1, the given active bank, bank A
valid with version `"factory"`, bank B invalid, update state idle with
unknown target, rollback flags clear, CRC computed last. -/
def metadata_init_defaults (initial_bank : Nat) : firmware_metadata_t :=
  setCrc
    { magic := METADATA_MAGIC
      version := METADATA_VERSION
      sequence := 1
      active_bank := initial_bank
      bank_a_crc32 := 0
      bank_a_size := 0
      bank_a_version := factoryVersion
      bank_a_boot_count := 0
      bank_a_valid := BANK_VALID
      bank_b_crc32 := 0
      bank_b_size := 0
      bank_b_version := []
      bank_b_boot_count := 0
      bank_b_valid := BANK_INVALID
      update_in_progress := UPDATE_IDLE
      update_target := BANK_UNKNOWN
      rollback_occurred := 0
      rollback_count := 0
      metadata_crc32 := 0 }

/-! ### Flash state and the double-buffered store (`metadata.c`)

A metadata sector either holds a fully programmed record or is `torn`
(erased, or interrupted mid-erase/mid-program).  A torn sector fails
validation. -/

inductive Sector where
  | stored (r : firmware_metadata_t)
  | torn
  deriving DecidableEq, Repr

/-- Validation of a sector's content, as `read_metadata_sector` followed by
`metadata_validate` behaves. -/
def sector_valid : Sector → Bool
  | .stored r => metadata_validate r
  | .torn => false

/-- The two metadata sectors (`METADATA_SECTOR_A`, `METADATA_SECTOR_B`). -/
structure Flash where
  s0 : Sector
  s1 : Sector
  deriving DecidableEq, Repr

def get_sector (i : Nat) (f : Flash) : Sector :=
  if i = 0 then f.s0 else f.s1

def set_sector (i : Nat) (s : Sector) (f : Flash) : Flash :=
  if i = 0 then { f with s0 := s } else { f with s1 := s }

/-- `write_metadata_sector` (`metadata.c` lines 40–78) with the erase and
single page program completed: the sector ends up holding the record. -/
def write_metadata_sector (i : Nat) (r : firmware_metadata_t) (f : Flash) : Flash :=
  set_sector i (.stored r) f

/-- The record-selection logic of `metadata_init` (`metadata.c` lines
161–200): validate both sectors; if both valid pick the higher sequence
(ties go to sector B), else the valid one, else none. -/
def resolve (f : Flash) : Option firmware_metadata_t :=
  match f.s0, f.s1 with
  | .stored a, .stored b =>
      if metadata_validate a && metadata_validate b then
        some (if a.sequence > b.sequence then a else b)
      else if metadata_validate a then some a
      else if metadata_validate b then some b
      else none
  | .stored a, .torn => if metadata_validate a then some a else none
  | .torn, .stored b => if metadata_validate b then some b else none
  | .torn, .torn => none

/-- `metadata_init` (`metadata.c` lines 157–203): resolve the current
record from flash; if neither sector validates, write the defaults to
sector 0 with sequence 1 and to sector 1 with sequence 2 (CRC recomputed),
caching the latter. -/
def metadata_init (f : Flash) : firmware_metadata_t × Flash :=
  match resolve f with
  | some r => (r, f)
  | none =>
      let d1 := metadata_init_defaults BANK_A
      let f1 := write_metadata_sector 0 d1 f
      let d2 := setCrc { d1 with sequence := (d1.sequence + 1) % 2 ^ 32 }
      (d2, write_metadata_sector 1 d2 f1)

/-- The metadata subsystem state: the two flash sectors plus the RAM cache
(`current_metadata` with `metadata_loaded`; `none` = not loaded). -/
structure MetaState where
  flash : Flash
  cache : Option firmware_metadata_t
  deriving DecidableEq, Repr

/-- `metadata_read` (`metadata.c` lines 205–217): return the cache, running
`metadata_init` first when not loaded. -/
def metadata_read (st : MetaState) : firmware_metadata_t × MetaState :=
  match st.cache with
  | some c => (c, st)
  | none =>
      let (r, f) := metadata_init st.flash
      (r, { flash := f, cache := some r })

/-- Inactive-sector selection inside `metadata_write` (`metadata.c` lines
235–247): both valid → the one with the smaller sequence (ties go to
sector 1); exactly sector 0 valid → sector 1; otherwise sector 0. -/
def inactive_sector (f : Flash) : Nat :=
  match f.s0, f.s1 with
  | .stored a, .stored b =>
      if metadata_validate a && metadata_validate b then
        (if a.sequence < b.sequence then 0 else 1)
      else if metadata_validate a then 1 else 0
  | .stored a, _ => if metadata_validate a then 1 else 0
  | _, _ => 0

/-- `metadata_write` (`metadata.c` lines 219–266), given the cached current
record `c` and the caller's proposed record `p`: bump the sequence (32-bit
wrap), recompute the CRC, program the inactive sector, read it back and
re-validate; on success the written record becomes the new cache, on
failure the cache stays `c`.  Returns (success, new cache, new flash). -/
def metadata_write (c p : firmware_metadata_t) (f : Flash) :
    Bool × firmware_metadata_t × Flash :=
  let w := setCrc { p with sequence := (c.sequence + 1) % 2 ^ 32 }
  let t := inactive_sector f
  let f2 := write_metadata_sector t w f
  if sector_valid (get_sector t f2) then (true, w, f2) else (false, c, f2)

/-! ### Convenience operations (`metadata.c` lines 272–489)

Each convenience operation loads the metadata if necessary, copies the
cached record, edits some fields and calls `metadata_write`.  The record
each operation proposes (or `none` when the operation fails its guard
without touching flash) is `op_proposed`; the individual API functions are
defined from it. -/

inductive Op where
  | setActiveBank (b : Nat)
  | incrementBootCount
  | resetBootCount
  | markBankValid (bank crc32 size : Nat) (version : List Nat)
  | markBankInvalid (bank : Nat)
  | setUpdateInProgress (target : Nat)
  | clearUpdateInProgress
  | triggerRollback
  | clearRollbackFlag
  deriving DecidableEq, Repr

/-- Rollback guard (`metadata.c` lines 427–440): the bank opposite the
active one must be marked `BANK_VALID`. -/
def opposite_valid (c : firmware_metadata_t) : Bool :=
  let nb := bank_get_opposite c.active_bank
  if nb = BANK_A then c.bank_a_valid == BANK_VALID
  else if nb = BANK_B then c.bank_b_valid == BANK_VALID
  else false

/-- Record construction of `metadata_trigger_rollback` (`metadata.c` lines
442–463): mark the old active bank invalid with boot count
`MAX_BOOT_ATTEMPTS`, switch to the opposite bank, zero its boot count, set
the rollback flag and bump the 8-bit rollback counter. -/
def rollback_record (c : firmware_metadata_t) : firmware_metadata_t :=
  let nb := bank_get_opposite c.active_bank
  let m1 :=
    if c.active_bank = BANK_A then
      { c with bank_a_valid := BANK_INVALID, bank_a_boot_count := MAX_BOOT_ATTEMPTS }
    else
      { c with bank_b_valid := BANK_INVALID, bank_b_boot_count := MAX_BOOT_ATTEMPTS }
  let m2 := { m1 with active_bank := nb }
  let m3 :=
    if nb = BANK_A then { m2 with bank_a_boot_count := 0 }
    else { m2 with bank_b_boot_count := 0 }
  { m3 with rollback_occurred := 0xFF, rollback_count := (m3.rollback_count + 1) % 256 }

/-- The record each convenience operation passes to `metadata_write`, built
from the cached record `c`; `none` when the operation returns `false`
before writing (invalid bank argument, unknown active bank, or rollback
with no valid opposite bank). -/
def op_proposed : Op → firmware_metadata_t → Option firmware_metadata_t
  | .setActiveBank b, c =>
      if b = BANK_A ∨ b = BANK_B then some { c with active_bank := b } else none
  | .incrementBootCount, c =>
      if c.active_bank = BANK_A then
        some { c with bank_a_boot_count := (c.bank_a_boot_count + 1) % 256 }
      else if c.active_bank = BANK_B then
        some { c with bank_b_boot_count := (c.bank_b_boot_count + 1) % 256 }
      else none
  | .resetBootCount, c =>
      if c.active_bank = BANK_A then some { c with bank_a_boot_count := 0 }
      else if c.active_bank = BANK_B then some { c with bank_b_boot_count := 0 }
      else none
  | .markBankValid bank crc32 size version, c =>
      if bank = BANK_A ∨ bank = BANK_B then
        if bank = BANK_A then
          some { c with bank_a_crc32 := crc32, bank_a_size := size,
                        bank_a_valid := BANK_VALID, bank_a_boot_count := 0,
                        bank_a_version := version.take 31 }
        else
          some { c with bank_b_crc32 := crc32, bank_b_size := size,
                        bank_b_valid := BANK_VALID, bank_b_boot_count := 0,
                        bank_b_version := version.take 31 }
      else none
  | .markBankInvalid bank, c =>
      if bank = BANK_A ∨ bank = BANK_B then
        if bank = BANK_A then
          some { c with bank_a_valid := BANK_INVALID,
                        bank_a_boot_count := MAX_BOOT_ATTEMPTS }
        else
          some { c with bank_b_valid := BANK_INVALID,
                        bank_b_boot_count := MAX_BOOT_ATTEMPTS }
      else none
  | .setUpdateInProgress target, c =>
      if target = BANK_A ∨ target = BANK_B then
        some { c with update_in_progress := UPDATE_IN_PROGRESS, update_target := target }
      else none
  | .clearUpdateInProgress, c =>
      some { c with update_in_progress := UPDATE_IDLE, update_target := BANK_UNKNOWN }
  | .triggerRollback, c =>
      if opposite_valid c then some (rollback_record c) else none
  | .clearRollbackFlag, c =>
      some { c with rollback_occurred := 0 }

/-- Run `metadata_write` and fold the result back into the subsystem
state. -/
def apply_write (c p : firmware_metadata_t) (st : MetaState) : Bool × MetaState :=
  let (ok, c2, f2) := metadata_write c p st.flash
  (ok, { flash := f2, cache := some c2 })

/-- A convenience operation executed without interruption. -/
def apply_op (op : Op) (st : MetaState) : Bool × MetaState :=
  let (c, st1) := metadata_read st
  match op_proposed op c with
  | none => (false, st1)
  | some p => apply_write c p st1

/-- `metadata_set_active_bank` (`metadata.c` lines 272–287). -/
def metadata_set_active_bank (b : Nat) (st : MetaState) : Bool × MetaState :=
  apply_op (.setActiveBank b) st

/-- `metadata_increment_boot_count` (`metadata.c` lines 289–306). -/
def metadata_increment_boot_count (st : MetaState) : Bool × MetaState :=
  apply_op .incrementBootCount st

/-- `metadata_trigger_rollback` (`metadata.c` lines 418–468). -/
def metadata_trigger_rollback (st : MetaState) : Bool × MetaState :=
  apply_op .triggerRollback st

/-- `metadata_clear_rollback_flag` (`metadata.c` lines 478–489). -/
def metadata_clear_rollback_flag (st : MetaState) : Bool × MetaState :=
  apply_op .clearRollbackFlag st

/-! ### Power-cut model

`metadata_write` touches exactly one sector: it erases the inactive sector
and programs one 256-byte page (the record is 244 bytes, so a single
`flash_range_program` call).  A power cut at any byte of the erase, between
erase and program, or at any byte of the program leaves that sector torn;
a cut after the program completes leaves the record fully stored. -/

inductive CrashPoint where
  | duringErase (k : Fin 4096)
  | afterErase
  | duringProgram (k : Fin 256)
  | afterProgram
  deriving DecidableEq

/-- Content of the sector under write at the moment power is lost. -/
def crashed_sector (w : firmware_metadata_t) : CrashPoint → Sector
  | .afterProgram => .stored w
  | _ => .torn

/-- The full record `metadata_write` would program for operation `op` from
cached record `c` (sequence bumped, CRC recomputed), when the operation
writes at all. -/
def op_write_record (op : Op) (c : firmware_metadata_t) : Option firmware_metadata_t :=
  (op_proposed op c).map fun p => setCrc { p with sequence := (c.sequence + 1) % 2 ^ 32 }

/-- Flash contents after power is cut at `cp` inside the flash write of
operation `op` (flash untouched when the operation fails its guard before
writing). -/
def crash_during_op (op : Op) (st : MetaState) (cp : CrashPoint) : Flash :=
  let (c, st1) := metadata_read st
  match op_write_record op c with
  | none => st1.flash
  | some w => set_sector (inactive_sector st1.flash) (crashed_sector w cp) st1.flash

/-- Both sectors valid implies distinct sequence numbers — the invariant
that makes the inactive sector always differ from the resolved current
one. -/
def distinct_seqs (f : Flash) : Bool :=
  match f.s0, f.s1 with
  | .stored a, .stored b =>
      !(metadata_validate a && metadata_validate b) || (a.sequence != b.sequence)
  | _, _ => true

/-! ### Basic lemmas about validation and record selection -/

theorem serializeBody_setCrc (r : firmware_metadata_t) :
    serializeBody (setCrc r) = serializeBody r := by
  simp [serializeBody, setCrc]

theorem calc_crc32_setCrc (r : firmware_metadata_t) :
    metadata_calculate_crc32 (setCrc r) = metadata_calculate_crc32 r := by
  simp [metadata_calculate_crc32, serializeBody_setCrc]

/-- A record whose CRC was just recomputed validates exactly when its
magic, version and active-bank fields are in range: the CRC conjunct of
`metadata_validate` holds by construction. -/
theorem metadata_validate_setCrc (r : firmware_metadata_t) :
    metadata_validate (setCrc r) =
      ((r.magic == METADATA_MAGIC) && (r.version == METADATA_VERSION) &&
        (r.active_bank == BANK_A || r.active_bank == BANK_B)) := by
  have hcrc : (metadata_calculate_crc32 (setCrc r) == (setCrc r).metadata_crc32) = true := by
    rw [calc_crc32_setCrc]
    simp [setCrc, metadata_calculate_crc32]
  simp only [metadata_validate, hcrc, Bool.and_true, Bool.true_and]
  simp [setCrc]

theorem resolve_validate {f : Flash} {c : firmware_metadata_t}
    (h : resolve f = some c) : metadata_validate c = true := by
  rcases f with ⟨s0, s1⟩
  cases s0 with
  | torn =>
    cases s1 with
    | torn => simp [resolve] at h
    | stored b =>
      by_cases hvb : metadata_validate b = true
      · have hb : b = c := by simpa [resolve, hvb] using h
        rw [← hb]; exact hvb
      · simp [resolve, hvb] at h
  | stored a =>
    cases s1 with
    | torn =>
      by_cases hva : metadata_validate a = true
      · have ha : a = c := by simpa [resolve, hva] using h
        rw [← ha]; exact hva
      · simp [resolve, hva] at h
    | stored b =>
      by_cases hva : metadata_validate a = true <;>
        by_cases hvb : metadata_validate b = true
      · by_cases hgt : a.sequence > b.sequence
        · have ha : a = c := by simpa [resolve, hva, hvb, hgt] using h
          rw [← ha]; exact hva
        · have hb : b = c := by simpa [resolve, hva, hvb, hgt] using h
          rw [← hb]; exact hvb
      · have ha : a = c := by simpa [resolve, hva, hvb] using h
        rw [← ha]; exact hva
      · have hb : b = c := by simpa [resolve, hva, hvb] using h
        rw [← hb]; exact hvb
      · simp [resolve, hva, hvb] at h

theorem metadata_init_of_resolve {f : Flash} {c : firmware_metadata_t}
    (h : resolve f = some c) : metadata_init f = (c, f) := by
  simp [metadata_init, h]

/-- Crash-atomicity core: if flash resolves to `c`, both-valid sectors
have distinct sequence numbers, and the record under write validates, then
after replacing the inactive sector by either `torn` or the fully written
record, flash resolves to `c` or to the written record. -/
theorem crash_core (f : Flash) (c w : firmware_metadata_t) (x : Sector)
    (hx : x = Sector.torn ∨ x = Sector.stored w)
    (hres : resolve f = some c)
    (hdist : distinct_seqs f = true)
    (hw : metadata_validate w = true) :
    resolve (set_sector (inactive_sector f) x f) = some c ∨
    resolve (set_sector (inactive_sector f) x f) = some w := by
  rcases f with ⟨s0, s1⟩
  cases s0 with
  | torn =>
    cases s1 with
    | torn => simp [resolve] at hres
    | stored b =>
      by_cases hvb : metadata_validate b = true
      · have hb : b = c := by simpa [resolve, hvb] using hres
        subst hb
        have h0 : inactive_sector ⟨Sector.torn, Sector.stored b⟩ = 0 := by
          simp [inactive_sector]
        rcases hx with hx | hx <;> subst hx
        · left; simp [h0, set_sector, resolve, hvb]
        · by_cases hcmp : w.sequence > b.sequence
          · right; simp [h0, set_sector, resolve, hvb, hw, hcmp]
          · left; simp [h0, set_sector, resolve, hvb, hw, hcmp]
      · simp [resolve, hvb] at hres
  | stored a =>
    cases s1 with
    | torn =>
      by_cases hva : metadata_validate a = true
      · have ha : a = c := by simpa [resolve, hva] using hres
        subst ha
        have h1 : inactive_sector ⟨Sector.stored a, Sector.torn⟩ = 1 := by
          simp [inactive_sector, hva]
        rcases hx with hx | hx <;> subst hx
        · left; simp [h1, set_sector, resolve, hva]
        · by_cases hcmp : a.sequence > w.sequence
          · left; simp [h1, set_sector, resolve, hva, hw, hcmp]
          · right; simp [h1, set_sector, resolve, hva, hw, hcmp]
      · simp [resolve, hva] at hres
    | stored b =>
      by_cases hva : metadata_validate a = true <;>
        by_cases hvb : metadata_validate b = true
      · -- both sectors valid: sequences distinct, write goes to the loser
        have hseq : a.sequence ≠ b.sequence := by
          simpa [distinct_seqs, hva, hvb] using hdist
        by_cases hgt : a.sequence > b.sequence
        · have ha : a = c := by simpa [resolve, hva, hvb, hgt] using hres
          subst ha
          have h1 : inactive_sector ⟨Sector.stored a, Sector.stored b⟩ = 1 := by
            simp [inactive_sector, hva, hvb, Nat.not_lt.mpr (Nat.le_of_lt hgt)]
          rcases hx with hx | hx <;> subst hx
          · left; simp [h1, set_sector, resolve, hva]
          · by_cases hcmp : a.sequence > w.sequence
            · left; simp [h1, set_sector, resolve, hva, hw, hcmp]
            · right; simp [h1, set_sector, resolve, hva, hw, hcmp]
        · have hlt : a.sequence < b.sequence :=
            Nat.lt_of_le_of_ne (Nat.le_of_not_lt hgt) hseq
          have hb : b = c := by simpa [resolve, hva, hvb, hgt] using hres
          subst hb
          have h0 : inactive_sector ⟨Sector.stored a, Sector.stored b⟩ = 0 := by
            simp [inactive_sector, hva, hvb, hlt]
          rcases hx with hx | hx <;> subst hx
          · left; simp [h0, set_sector, resolve, hvb]
          · by_cases hcmp : w.sequence > b.sequence
            · right; simp [h0, set_sector, resolve, hvb, hw, hcmp]
            · left; simp [h0, set_sector, resolve, hvb, hw, hcmp]
      · have ha : a = c := by simpa [resolve, hva, hvb] using hres
        subst ha
        have h1 : inactive_sector ⟨Sector.stored a, Sector.stored b⟩ = 1 := by
          simp [inactive_sector, hva, hvb]
        rcases hx with hx | hx <;> subst hx
        · left; simp [h1, set_sector, resolve, hva]
        · by_cases hcmp : a.sequence > w.sequence
          · left; simp [h1, set_sector, resolve, hva, hw, hcmp]
          · right; simp [h1, set_sector, resolve, hva, hw, hcmp]
      · have hb : b = c := by simpa [resolve, hva, hvb] using hres
        subst hb
        have h0 : inactive_sector ⟨Sector.stored a, Sector.stored b⟩ = 0 := by
          simp [inactive_sector, hva]
        rcases hx with hx | hx <;> subst hx
        · left; simp [h0, set_sector, resolve, hvb]
        · by_cases hcmp : w.sequence > b.sequence
          · right; simp [h0, set_sector, resolve, hvb, hw, hcmp]
          · left; simp [h0, set_sector, resolve, hvb, hw, hcmp]
      · simp [resolve, hva, hvb] at hres

theorem validate_fields {c : firmware_metadata_t} (h : metadata_validate c = true) :
    c.magic = METADATA_MAGIC ∧ c.version = METADATA_VERSION ∧
      (c.active_bank = BANK_A ∨ c.active_bank = BANK_B) := by
  simp only [metadata_validate, Bool.and_eq_true, Bool.or_eq_true, beq_iff_eq] at h
  exact ⟨h.1.1.1, h.1.1.2, h.2⟩

theorem rollback_record_fields (c : firmware_metadata_t) :
    (rollback_record c).magic = c.magic ∧
    (rollback_record c).version = c.version ∧
    (rollback_record c).active_bank = bank_get_opposite c.active_bank := by
  simp only [rollback_record]
  split_ifs <;> simp_all

/-- Every record a convenience operation proposes keeps the magic and
version of the cached record and an in-range active bank. -/
theorem op_proposed_fields (op : Op) (c p : firmware_metadata_t)
    (hc : metadata_validate c = true) (hp : op_proposed op c = some p) :
    p.magic = c.magic ∧ p.version = c.version ∧
      (p.active_bank = BANK_A ∨ p.active_bank = BANK_B) := by
  obtain ⟨hm, hv, hb⟩ := validate_fields hc
  cases op with
  | setActiveBank b =>
    simp only [op_proposed] at hp
    split_ifs at hp with hg
    cases hp
    simp [hg]
  | incrementBootCount =>
    simp only [op_proposed] at hp
    split_ifs at hp <;> cases hp <;> simp [hb]
  | resetBootCount =>
    simp only [op_proposed] at hp
    split_ifs at hp <;> cases hp <;> simp [hb]
  | markBankValid bank crc32 size version =>
    simp only [op_proposed] at hp
    split_ifs at hp <;> cases hp <;> simp [hb]
  | markBankInvalid bank =>
    simp only [op_proposed] at hp
    split_ifs at hp <;> cases hp <;> simp [hb]
  | setUpdateInProgress target =>
    simp only [op_proposed] at hp
    split_ifs at hp <;> cases hp <;> simp [hb]
  | clearUpdateInProgress =>
    simp only [op_proposed] at hp
    cases hp
    simp [hb]
  | triggerRollback =>
    simp only [op_proposed] at hp
    split_ifs at hp
    cases hp
    obtain ⟨h1, h2, h3⟩ := rollback_record_fields c
    refine ⟨h1, h2, ?_⟩
    rw [h3]
    rcases hb with hb | hb <;> simp [bank_get_opposite, hb, BANK_A, BANK_B]
  | clearRollbackFlag =>
    simp only [op_proposed] at hp
    cases hp
    simp [hb]

/-- The full record `metadata_write` programs for a convenience operation
validates: the CRC is freshly computed and magic, version and active bank
are in range. -/
theorem op_write_record_validates (op : Op) (c w : firmware_metadata_t)
    (hc : metadata_validate c = true) (h : op_write_record op c = some w) :
    metadata_validate w = true := by
  obtain ⟨hm, hv, hb⟩ := validate_fields hc
  simp only [op_write_record] at h
  cases hp : op_proposed op c with
  | none => rw [hp] at h; cases h
  | some p =>
    rw [hp] at h
    simp only [Option.map_some'] at h
    obtain ⟨pm, pv, pb⟩ := op_proposed_fields op c p hc hp
    cases h
    rw [metadata_validate_setCrc]
    simp only [pm, pv, hm, hv]
    rcases pb with h | h <;> simp [h]

/-- Claim C1 (metadata power-failure atomicity).  From any metadata state
whose cache agrees with the resolved flash record and whose two sectors,
when both valid, carry distinct sequence numbers, interrupting any
convenience operation by a power cut at any byte of the sector erase or of
the page program (or just after either) leaves flash in a state from which
`metadata_init` returns — without further writes — a record that
validates and is either the pre-operation current record or the complete
post-operation record. -/
theorem metadata_crash_atomicity (st : MetaState) (c : firmware_metadata_t)
    (op : Op) (cp : CrashPoint)
    (hc : st.cache = some c)
    (hres : resolve st.flash = some c)
    (hdist : distinct_seqs st.flash = true) :
    ∃ r, metadata_init (crash_during_op op st cp) = (r, crash_during_op op st cp) ∧
      metadata_validate r = true ∧
      (r = c ∨ op_write_record op c = some r) := by
  have hvc : metadata_validate c = true := resolve_validate hres
  have hread : metadata_read st = (c, st) := by simp [metadata_read, hc]
  cases hop : op_write_record op c with
  | none =>
    refine ⟨c, ?_, hvc, Or.inl rfl⟩
    simp [crash_during_op, hread, hop, metadata_init_of_resolve hres]
  | some w =>
    have hw : metadata_validate w = true := op_write_record_validates op c w hvc hop
    have hxs : crashed_sector w cp = Sector.torn ∨ crashed_sector w cp = Sector.stored w := by
      cases cp <;> simp [crashed_sector]
    have hflash : crash_during_op op st cp =
        set_sector (inactive_sector st.flash) (crashed_sector w cp) st.flash := by
      simp [crash_during_op, hread, hop]
    rcases crash_core st.flash c w (crashed_sector w cp) hxs hres hdist hw with h | h
    · refine ⟨c, ?_, hvc, Or.inl rfl⟩
      rw [hflash, metadata_init_of_resolve h]
    · refine ⟨w, ?_, hw, Or.inr rfl⟩
      rw [hflash, metadata_init_of_resolve h]

/-- The flash image and cache produced by first boot on erased flash:
sector 0 holds the defaults with sequence 1, sector 1 the same record with
sequence 2, and the cache holds the latter. -/
def wrec1 : firmware_metadata_t := metadata_init_defaults BANK_A

def wrec2 : firmware_metadata_t :=
  setCrc { metadata_init_defaults BANK_A with sequence := 2 }

def wstate : MetaState :=
  { flash := ⟨.stored wrec1, .stored wrec2⟩, cache := some wrec2 }

theorem wrec1_validates : metadata_validate wrec1 = true := by
  rw [wrec1, metadata_init_defaults, metadata_validate_setCrc]
  decide

theorem wrec2_validates : metadata_validate wrec2 = true := by
  rw [wrec2, metadata_validate_setCrc]
  simp [metadata_init_defaults, setCrc]

theorem wstate_resolves : resolve wstate.flash = some wrec2 := by
  have h1 : wrec1.sequence = 1 := by
    simp [wrec1, metadata_init_defaults, setCrc]
  have h2 : wrec2.sequence = 2 := by
    simp [wrec2, setCrc]
  simp [wstate, resolve, wrec1_validates, wrec2_validates, h1, h2]

theorem wstate_distinct : distinct_seqs wstate.flash = true := by
  have h1 : wrec1.sequence = 1 := by
    simp [wrec1, metadata_init_defaults, setCrc]
  have h2 : wrec2.sequence = 2 := by
    simp [wrec2, setCrc]
  simp [wstate, distinct_seqs, h1, h2]

/-- Witness for claim C1: the crash-atomicity theorem applied to the
first-boot state, the increment-boot-count operation and a power cut at
the first byte of the sector erase. -/
theorem metadata_crash_atomicity_witness :
    ∃ r, metadata_init (crash_during_op .incrementBootCount wstate (.duringErase 0)) =
        (r, crash_during_op .incrementBootCount wstate (.duringErase 0)) ∧
      metadata_validate r = true ∧
      (r = wrec2 ∨ op_write_record .incrementBootCount wrec2 = some r) :=
  metadata_crash_atomicity wstate wrec2 .incrementBootCount (.duringErase 0)
    rfl wstate_resolves wstate_distinct

theorem get_set_sector_same (i : Nat) (s : Sector) (f : Flash) :
    get_sector i (set_sector i s f) = s := by
  simp only [get_sector, set_sector]
  split <;> simp_all

/-- A convenience operation whose proposed record is accepted by the
read-back validation programs the inactive sector and caches the written
record. -/
theorem apply_op_writes (op : Op) (st : MetaState) (c p : firmware_metadata_t)
    (hc : st.cache = some c) (hp : op_proposed op c = some p)
    (hwv : metadata_validate (setCrc { p with sequence := (c.sequence + 1) % 2 ^ 32 }) = true) :
    apply_op op st = (true,
      { flash := write_metadata_sector (inactive_sector st.flash)
          (setCrc { p with sequence := (c.sequence + 1) % 2 ^ 32 }) st.flash,
        cache := some (setCrc { p with sequence := (c.sequence + 1) % 2 ^ 32 }) }) := by
  have hread : metadata_read st = (c, st) := by simp [metadata_read, hc]
  simp only [apply_op, hread, hp, apply_write, metadata_write, write_metadata_sector,
    get_set_sector_same, sector_valid]
  rw [hwv]
  simp

/-- Claim C3 (metadata write protocol).  For every cached record `c`,
proposed record `p` and flash whose two sectors never hold valid records
with equal sequence numbers, `metadata_write` programs into the inactive
sector a copy `w` of `p` whose sequence is the cached sequence plus one
(32-bit) and whose CRC is recomputed over the 240 preceding body bytes;
the targeted sector is the one with the strictly smaller sequence when
both validate and an invalid one otherwise; the call re-validates the
read-back sector and returns `true` with `w` as the new cache exactly when
that validates, returning `false` and keeping cache `c` otherwise. -/
theorem metadata_write_protocol (c p : firmware_metadata_t) (f : Flash)
    (hdist : distinct_seqs f = true) :
    ∃ w, w = setCrc { p with sequence := (c.sequence + 1) % 2 ^ 32 } ∧
      w.sequence = (c.sequence + 1) % 2 ^ 32 ∧
      w.metadata_crc32 = crc32_calculate (serializeBody w) ∧
      metadata_write c p f =
        (metadata_validate w,
         if metadata_validate w then w else c,
         write_metadata_sector (inactive_sector f) w f) ∧
      (∀ a b, f.s0 = .stored a → f.s1 = .stored b →
        metadata_validate a = true → metadata_validate b = true →
        (inactive_sector f = 0 → a.sequence < b.sequence) ∧
        (inactive_sector f = 1 → b.sequence < a.sequence)) ∧
      (sector_valid f.s0 = false ∨ sector_valid f.s1 = false →
        sector_valid (get_sector (inactive_sector f) f) = false) := by
  refine ⟨setCrc { p with sequence := (c.sequence + 1) % 2 ^ 32 }, rfl, ?_, ?_, ?_, ?_, ?_⟩
  · simp [setCrc]
  · rw [serializeBody_setCrc { p with sequence := (c.sequence + 1) % 2 ^ 32 }]
    simp [setCrc, metadata_calculate_crc32]
  · simp only [metadata_write, write_metadata_sector, get_set_sector_same, sector_valid]
    split <;> simp_all
  · intro a b h0 h1 hva hvb
    have hseq : a.sequence ≠ b.sequence := by
      rcases f with ⟨s0, s1⟩
      cases h0; cases h1
      simpa [distinct_seqs, hva, hvb] using hdist
    rcases f with ⟨s0, s1⟩
    cases h0; cases h1
    constructor
    · intro ht
      by_contra hlt
      simp [inactive_sector, hva, hvb, hlt] at ht
    · intro ht
      by_cases hlt : a.sequence < b.sequence
      · simp [inactive_sector, hva, hvb, hlt] at ht
      · exact Nat.lt_of_le_of_ne (Nat.le_of_not_lt hlt) (Ne.symm hseq)
  · intro hinv
    rcases f with ⟨s0, s1⟩
    cases s0 with
    | torn =>
      cases s1 with
      | torn => simp [inactive_sector, get_sector, sector_valid]
      | stored b => simp [inactive_sector, get_sector, sector_valid]
    | stored a =>
      cases s1 with
      | torn =>
        by_cases hva : metadata_validate a = true <;>
          simp [inactive_sector, get_sector, sector_valid, hva]
      | stored b =>
        simp only [sector_valid] at hinv
        rcases hinv with hv | hv
        · simp [inactive_sector, get_sector, sector_valid, hv]
        · by_cases hva : metadata_validate a = true <;>
            simp [inactive_sector, get_sector, sector_valid, hva, hv]

/-- Witness for claim C3: the write protocol applied to the first-boot
flash image with the cached record proposed back unchanged. -/
theorem metadata_write_protocol_witness :
    distinct_seqs wstate.flash = true ∧
    ∃ w, w = setCrc { wrec2 with sequence := (wrec2.sequence + 1) % 2 ^ 32 } ∧
      w.sequence = (wrec2.sequence + 1) % 2 ^ 32 ∧
      w.metadata_crc32 = crc32_calculate (serializeBody w) ∧
      metadata_write wrec2 wrec2 wstate.flash =
        (metadata_validate w,
         if metadata_validate w then w else wrec2,
         write_metadata_sector (inactive_sector wstate.flash) w wstate.flash) ∧
      (∀ a b, wstate.flash.s0 = .stored a → wstate.flash.s1 = .stored b →
        metadata_validate a = true → metadata_validate b = true →
        (inactive_sector wstate.flash = 0 → a.sequence < b.sequence) ∧
        (inactive_sector wstate.flash = 1 → b.sequence < a.sequence)) ∧
      (sector_valid wstate.flash.s0 = false ∨ sector_valid wstate.flash.s1 = false →
        sector_valid (get_sector (inactive_sector wstate.flash) wstate.flash) = false) :=
  ⟨wstate_distinct, metadata_write_protocol wrec2 wrec2 wstate.flash wstate_distinct⟩

/-- Claim C4 (rollback).  With a loaded cache `c` that validates:
if the bank opposite the active one is not marked valid the call returns
`false` and leaves flash and cache untouched; otherwise it writes a record
in which the old active bank is invalid with boot count saturated to
`MAX_BOOT_ATTEMPTS`, the opposite bank is active with boot count zero, the
rollback flag is `0xFF` and the 8-bit rollback counter is incremented. -/
theorem metadata_trigger_rollback_spec (st : MetaState) (c : firmware_metadata_t)
    (hc : st.cache = some c) (hvc : metadata_validate c = true) :
    (opposite_valid c = false → metadata_trigger_rollback st = (false, st)) ∧
    (opposite_valid c = true →
      ∃ w, w = setCrc { rollback_record c with sequence := (c.sequence + 1) % 2 ^ 32 } ∧
        metadata_trigger_rollback st =
          (true, { flash := write_metadata_sector (inactive_sector st.flash) w st.flash,
                   cache := some w }) ∧
        w.active_bank = bank_get_opposite c.active_bank ∧
        (c.active_bank = BANK_A →
          w.bank_a_valid = BANK_INVALID ∧ w.bank_a_boot_count = MAX_BOOT_ATTEMPTS ∧
          w.bank_b_boot_count = 0) ∧
        (c.active_bank = BANK_B →
          w.bank_b_valid = BANK_INVALID ∧ w.bank_b_boot_count = MAX_BOOT_ATTEMPTS ∧
          w.bank_a_boot_count = 0) ∧
        w.rollback_occurred = 0xFF ∧
        w.rollback_count = (c.rollback_count + 1) % 256) := by
  have hread : metadata_read st = (c, st) := by simp [metadata_read, hc]
  constructor
  · intro hov
    simp [metadata_trigger_rollback, apply_op, hread, op_proposed, hov]
  · intro hov
    obtain ⟨hm, hv, hb⟩ := validate_fields hvc
    have hp : op_proposed Op.triggerRollback c = some (rollback_record c) := by
      simp [op_proposed, hov]
    have hwv : metadata_validate
        (setCrc { rollback_record c with sequence := (c.sequence + 1) % 2 ^ 32 }) = true := by
      apply op_write_record_validates .triggerRollback c _ hvc
      simp only [op_write_record, hp, Option.map_some']
    refine ⟨setCrc { rollback_record c with sequence := (c.sequence + 1) % 2 ^ 32 },
      rfl, ?_, ?_, ?_, ?_, ?_, ?_⟩
    · exact apply_op_writes Op.triggerRollback st c (rollback_record c) hc hp hwv
    · have := (rollback_record_fields c).2.2
      simp [setCrc, this]
    · intro ha
      simp [setCrc, rollback_record, bank_get_opposite, ha, BANK_A, BANK_B]
    · intro ha
      simp [setCrc, rollback_record, bank_get_opposite, ha, BANK_A, BANK_B]
    · simp [setCrc, rollback_record]
    · simp only [setCrc, rollback_record]
      split_ifs <;> simp

/-- Witness for claim C4: the rollback specification applied to the
first-boot cache, where bank B is invalid and the rollback therefore
fails without changing the state. -/
theorem metadata_trigger_rollback_spec_witness :
    wstate.cache = some wrec2 ∧ metadata_validate wrec2 = true ∧
    opposite_valid wrec2 = false ∧
    metadata_trigger_rollback wstate = (false, wstate) :=
  ⟨rfl, wrec2_validates,
    by simp [opposite_valid, wrec2, setCrc, metadata_init_defaults, bank_get_opposite,
      BANK_A, BANK_B, BANK_VALID, BANK_INVALID],
    (metadata_trigger_rollback_spec wstate wrec2 rfl wrec2_validates).1
      (by simp [opposite_valid, wrec2, setCrc, metadata_init_defaults, bank_get_opposite,
        BANK_A, BANK_B, BANK_VALID, BANK_INVALID])⟩

/-! ### Flash abstraction (`flash_ops.c`, `flash_partitions.h`)

Flash memory is a function from byte offsets to byte values.  Erase sets a
range to `0xFF`; program copies the buffer.  The erase loop walks whole
sectors and the write loop whole pages, which on the aligned inputs the
guards admit covers exactly `[offset, offset + size)`. -/

def FLASH_TOTAL_SIZE : Nat := 2 * 1024 * 1024
def FLASH_SECTOR_SIZE : Nat := 4096
def FLASH_PAGE_SIZE : Nat := 256
def BANK_A_OFFSET : Nat := 0x6000
def BANK_B_OFFSET : Nat := 0xE6000

def IS_SECTOR_ALIGNED (x : Nat) : Bool := x &&& (FLASH_SECTOR_SIZE - 1) == 0
def IS_PAGE_ALIGNED (x : Nat) : Bool := x &&& (FLASH_PAGE_SIZE - 1) == 0

inductive flash_op_result_t where
  | FLASH_OP_SUCCESS
  | FLASH_OP_ERROR_INVALID_PARAM
  | FLASH_OP_ERROR_NOT_ALIGNED
  | FLASH_OP_ERROR_OUT_OF_RANGE
  | FLASH_OP_ERROR_VERIFY_FAILED
  | FLASH_OP_ERROR_CRC_MISMATCH
  | FLASH_OP_ERROR_TIMEOUT
  deriving DecidableEq, Repr

/-- `flash_erase_region` (`flash_ops.c` lines 56–104): sector-alignment
check, total-size range check (32-bit sum), protected-region check
(`offset < BANK_A_OFFSET`), then erase the sectors. -/
def flash_erase_region (offset size : Nat) (mem : Nat → Nat) :
    flash_op_result_t × (Nat → Nat) :=
  if !IS_SECTOR_ALIGNED offset || !IS_SECTOR_ALIGNED size then
    (.FLASH_OP_ERROR_NOT_ALIGNED, mem)
  else if (offset + size) % 2 ^ 32 > FLASH_TOTAL_SIZE then
    (.FLASH_OP_ERROR_OUT_OF_RANGE, mem)
  else if offset < BANK_A_OFFSET then
    (.FLASH_OP_ERROR_OUT_OF_RANGE, mem)
  else
    (.FLASH_OP_SUCCESS, fun a => if offset ≤ a ∧ a < offset + size then 0xFF else mem a)

/-- `flash_write` (`flash_ops.c` lines 121–167): empty-buffer check,
page-alignment check, total-size range check, then program the pages.
There is no protected-region check in the source. -/
def flash_write (offset : Nat) (data : List Nat) (mem : Nat → Nat) :
    flash_op_result_t × (Nat → Nat) :=
  if data.length = 0 then
    (.FLASH_OP_ERROR_INVALID_PARAM, mem)
  else if !IS_PAGE_ALIGNED offset || !IS_PAGE_ALIGNED data.length then
    (.FLASH_OP_ERROR_NOT_ALIGNED, mem)
  else if (offset + data.length) % 2 ^ 32 > FLASH_TOTAL_SIZE then
    (.FLASH_OP_ERROR_OUT_OF_RANGE, mem)
  else
    (.FLASH_OP_SUCCESS,
     fun a => if offset ≤ a ∧ a < offset + data.length then data.getD (a - offset) 0 else mem a)

/-- The erase path does reject every protected offset: any
`flash_erase_region` call with `offset < BANK_A_OFFSET` fails (with the
not-aligned or out-of-range error) and leaves memory unchanged. -/
theorem flash_erase_region_protects (offset size : Nat) (mem : Nat → Nat)
    (h : offset < BANK_A_OFFSET) :
    (flash_erase_region offset size mem).1 ≠ .FLASH_OP_SUCCESS ∧
    (flash_erase_region offset size mem).2 = mem := by
  unfold flash_erase_region
  split_ifs with h1 h2
  · exact ⟨by simp, rfl⟩
  · exact ⟨by simp, rfl⟩
  · exact ⟨by simp, rfl⟩

set_option maxRecDepth 8000 in
/-- Claim C2, behaviour at the failing input: `flash_write` at offset
`0x4000` — the first byte of metadata sector A, below `BANK_A_OFFSET` —
with a page of zero bytes returns `FLASH_OP_SUCCESS` instead of the
out-of-range error and programs the protected region (the byte at
`0x4000` changes from `0xFF` to `0`). -/
theorem flash_write_metadata_region_accepted :
    (flash_write 0x4000 (List.replicate 256 0) (fun _ => 0xFF)).1 =
        .FLASH_OP_SUCCESS ∧
    (flash_write 0x4000 (List.replicate 256 0) (fun _ => 0xFF)).1 ≠
        .FLASH_OP_ERROR_OUT_OF_RANGE ∧
    (flash_write 0x4000 (List.replicate 256 0) (fun _ => 0xFF)).2 0x4000 = 0 ∧
    (fun (_ : Nat) => 0xFF) 0x4000 = 0xFF ∧
    0x4000 < BANK_A_OFFSET := by
  refine ⟨?_, ?_, ?_, rfl, by decide⟩
  · decide
  · decide
  · decide

/-! ### AI tuning session (`ai_tuning.c`, `ai_tuning.h`)

C `float` arithmetic is modelled with exact rationals.  The global
`g_config` is the configuration `ai_tuning_init` installs (`defaultConfig`
below); nothing in the sources mutates it afterwards, so the session
functions take it as a parameter and the claim theorems instantiate it. -/

inductive ai_tuning_state_t where
  | AI_TUNING_IDLE
  | AI_TUNING_PHASE_1_COARSE
  | AI_TUNING_PHASE_2_FINE
  | AI_TUNING_COMPLETE
  | AI_TUNING_ERROR
  deriving DecidableEq, Repr

structure ai_drop_telemetry_t where
  drop_number : Nat
  coarse_time_ms : ℚ
  fine_time_ms : ℚ
  total_time_ms : ℚ
  final_weight : ℚ
  target_weight : ℚ
  overthrow : ℚ
  overthrow_percent : ℚ
  coarse_kp_used : ℚ
  coarse_kd_used : ℚ
  fine_kp_used : ℚ
  fine_kd_used : ℚ
  accuracy_score : ℚ
  speed_score : ℚ
  overall_score : ℚ
  
instance : Inhabited ai_drop_telemetry_t :=
  ⟨{ drop_number := 0, coarse_time_ms := 0, fine_time_ms := 0, total_time_ms := 0,
     final_weight := 0, target_weight := 0, overthrow := 0, overthrow_percent := 0,
     coarse_kp_used := 0, coarse_kd_used := 0, fine_kp_used := 0, fine_kd_used := 0,
     accuracy_score := 0, speed_score := 0, overall_score := 0 }⟩

structure ai_tuning_config_t where
  max_overthrow_percent : ℚ
  target_coarse_time_ms : ℚ
  target_total_time_ms : ℚ
  weight_overthrow : ℚ
  weight_time : ℚ
  weight_consistency : ℚ
  coarse_kp_min : ℚ
  coarse_kp_max : ℚ
  coarse_kd_min : ℚ
  coarse_kd_max : ℚ
  fine_kp_min : ℚ
  fine_kp_max : ℚ
  fine_kd_min : ℚ
  fine_kd_max : ℚ
  learning_rate_kp : ℚ
  learning_rate_kd : ℚ
  
/-- The configuration installed by `ai_tuning_init` (`ai_tuning.c` lines
18–55). -/
def defaultConfig : ai_tuning_config_t :=
  { max_overthrow_percent := 667 / 100
    target_coarse_time_ms := 10000
    target_total_time_ms := 15000
    weight_overthrow := 10
    weight_time := 1
    weight_consistency := 5
    coarse_kp_min := 0
    coarse_kp_max := 100
    coarse_kd_min := 0
    coarse_kd_max := 100
    fine_kp_min := 0
    fine_kp_max := 100
    fine_kd_min := 0
    fine_kd_max := 100
    learning_rate_kp := 1 / 10
    learning_rate_kd := 1 / 10 }

/-- `profile_t`.  Modelled from the spec: `profile.h` is not in the source
tree; spec §3.5 lists the fields the tuning and charge code reads (the
coarse/fine PID gains, per-motor flow-speed bounds and the
AI-tuning-enabled flag). -/
structure profile_t where
  coarse_kp : ℚ
  coarse_ki : ℚ
  coarse_kd : ℚ
  fine_kp : ℚ
  fine_ki : ℚ
  fine_kd : ℚ
  coarse_min_flow_speed_rps : ℚ
  coarse_max_flow_speed_rps : ℚ
  fine_min_flow_speed_rps : ℚ
  fine_max_flow_speed_rps : ℚ
  ai_tuning_enabled : Bool
  
structure ai_tuning_session_t where
  state : ai_tuning_state_t
  drops_completed : Nat
  total_drops_target : Nat
  max_drops_allowed : Nat
  min_drops_per_phase : Nat
  drops : List ai_drop_telemetry_t
  coarse_kp_best : ℚ
  coarse_kd_best : ℚ
  coarse_best_score : ℚ
  coarse_kp_min : ℚ
  coarse_kp_max : ℚ
  coarse_kd_min : ℚ
  coarse_kd_max : ℚ
  fine_kp_best : ℚ
  fine_kd_best : ℚ
  fine_best_score : ℚ
  fine_kp_min : ℚ
  fine_kp_max : ℚ
  fine_kd_min : ℚ
  fine_kd_max : ℚ
  recommended_coarse_kp : ℚ
  recommended_coarse_kd : ℚ
  recommended_fine_kp : ℚ
  recommended_fine_kd : ℚ
  avg_overthrow : ℚ
  avg_total_time : ℚ
  consistency_score : ℚ
  exploration_factor : ℚ
  consecutive_good_drops : Nat
  
/-- The all-zero session produced by `memset` (state `AI_TUNING_IDLE` is
value 0). -/
def zeroSession : ai_tuning_session_t :=
  { state := .AI_TUNING_IDLE, drops_completed := 0, total_drops_target := 0,
    max_drops_allowed := 0, min_drops_per_phase := 0, drops := [],
    coarse_kp_best := 0, coarse_kd_best := 0, coarse_best_score := 0,
    coarse_kp_min := 0, coarse_kp_max := 0, coarse_kd_min := 0, coarse_kd_max := 0,
    fine_kp_best := 0, fine_kd_best := 0, fine_best_score := 0,
    fine_kp_min := 0, fine_kp_max := 0, fine_kd_min := 0, fine_kd_max := 0,
    recommended_coarse_kp := 0, recommended_coarse_kd := 0,
    recommended_fine_kp := 0, recommended_fine_kd := 0,
    avg_overthrow := 0, avg_total_time := 0, consistency_score := 0,
    exploration_factor := 0, consecutive_good_drops := 0 }

/-- `ai_tuning_start` (`ai_tuning.c` lines 61–134): reset the session,
enter phase 1 with target 4 / maximum 50 drops, minimum 2 drops per phase,
exploration factor 0.5, search ranges from the configuration, starting
gains from the profile when in `[0.1, 100]` and `0.1` otherwise, and both
best scores `-1` (not yet evaluated). -/
def ai_tuning_start (cfg : ai_tuning_config_t) (p : profile_t) : ai_tuning_session_t :=
  { zeroSession with
    state := .AI_TUNING_PHASE_1_COARSE
    drops_completed := 0
    total_drops_target := 4
    max_drops_allowed := 50
    min_drops_per_phase := 2
    exploration_factor := 1 / 2
    consecutive_good_drops := 0
    coarse_kp_min := cfg.coarse_kp_min
    coarse_kp_max := cfg.coarse_kp_max
    coarse_kd_min := cfg.coarse_kd_min
    coarse_kd_max := cfg.coarse_kd_max
    coarse_kp_best := if 1 / 10 ≤ p.coarse_kp ∧ p.coarse_kp ≤ 100 then p.coarse_kp else 1 / 10
    coarse_kd_best := if 1 / 10 ≤ p.coarse_kd ∧ p.coarse_kd ≤ 100 then p.coarse_kd else 1 / 10
    coarse_best_score := -1
    fine_kp_min := cfg.fine_kp_min
    fine_kp_max := cfg.fine_kp_max
    fine_kd_min := cfg.fine_kd_min
    fine_kd_max := cfg.fine_kd_max
    fine_kp_best := if 1 / 10 ≤ p.fine_kp ∧ p.fine_kp ≤ 100 then p.fine_kp else 1 / 10
    fine_kd_best := if 1 / 10 ≤ p.fine_kd ∧ p.fine_kd ≤ 100 then p.fine_kd else 1 / 10
    fine_best_score := -1 }

/-- `ai_tuning_is_active` (`ai_tuning.c` lines 676–679). -/
def ai_tuning_is_active (s : ai_tuning_session_t) : Bool :=
  s.state == .AI_TUNING_PHASE_1_COARSE || s.state == .AI_TUNING_PHASE_2_FINE

/-- Overthrow component of `calculate_drop_score` (`ai_tuning.c` lines
352–354). -/
def overthrow_score (cfg : ai_tuning_config_t) (t : ai_drop_telemetry_t) : ℚ :=
  100 * max 0 (1 - |t.overthrow_percent| / cfg.max_overthrow_percent)

/-- Speed component (`ai_tuning.c` lines 356–358). -/
def speed_score (cfg : ai_tuning_config_t) (t : ai_drop_telemetry_t) : ℚ :=
  100 * max 0 (2 - t.total_time_ms / cfg.target_total_time_ms)

/-- Accuracy component (`ai_tuning.c` lines 360–363). -/
def accuracy_score (t : ai_drop_telemetry_t) : ℚ :=
  100 * max 0 (1 - 100 * |t.final_weight - t.target_weight| / t.target_weight)

/-- `calculate_drop_score` (`ai_tuning.c` lines 349–371): weighted mean of
the three components with weights (overthrow, time, 1). -/
def calculate_drop_score (cfg : ai_tuning_config_t) (t : ai_drop_telemetry_t) : ℚ :=
  (cfg.weight_overthrow * overthrow_score cfg t + cfg.weight_time * speed_score cfg t +
      accuracy_score t) /
    (cfg.weight_overthrow + cfg.weight_time + 1)

/-- `check_phase_convergence` (`ai_tuning.c` lines 289–347), which also
updates the consecutive-good-drops streak counter (an 8-bit field). -/
def check_phase_convergence (cfg : ai_tuning_config_t)
    (phase_start_idx phase_drop_count : Nat) (s : ai_tuning_session_t) :
    Bool × ai_tuning_session_t :=
  if phase_drop_count < 2 then (false, s)
  else
    let d1 := s.drops.getD (phase_start_idx + phase_drop_count - 2) default
    let d2 := s.drops.getD (phase_start_idx + phase_drop_count - 1) default
    let excellent := |d1.overthrow_percent| < 3 ∧ |d2.overthrow_percent| < 3 ∧
      d1.overall_score > 80 ∧ d2.overall_score > 80
    let overthrow_acceptable := |d1.overthrow_percent| < cfg.max_overthrow_percent ∧
      |d2.overthrow_percent| < cfg.max_overthrow_percent
    let score_stable := d2.overall_score - d1.overall_score ≥ -1
    let s :=
      if overthrow_acceptable ∧ d2.overall_score > 75 then
        { s with consecutive_good_drops := (s.consecutive_good_drops + 1) % 256 }
      else { s with consecutive_good_drops := 0 }
    if excellent then (true, s)
    else if overthrow_acceptable ∧ score_stable then (true, s)
    else if s.consecutive_good_drops ≥ 2 then (true, s)
    else (false, s)

/-- `calculate_next_params_phase1` (`ai_tuning.c` lines 373–468). -/
def calculate_next_params_phase1 (cfg : ai_tuning_config_t)
    (s : ai_tuning_session_t) : ai_tuning_session_t :=
  let dip := s.drops_completed
  let base_step : ℚ := 1 / 10
  let step_kp := base_step * (1 + s.exploration_factor)
  let step_kd := base_step * (1 + s.exploration_factor * (1 / 2))
  let s :=
    if dip = 1 then
      let prev := s.drops.getD (dip - 1) default
      if prev.overall_score < 70 then
        { s with coarse_kp_best := s.coarse_kp_best + step_kp * 2,
                 exploration_factor := 4 / 5 }
      else
        { s with coarse_kp_best := s.coarse_kp_best + step_kp,
                 exploration_factor := 1 / 2 }
    else if dip = 2 then
      let drop1 := s.drops.getD 0 default
      let drop2 := s.drops.getD 1 default
      let prev := s.drops.getD (dip - 1) default
      let score_gradient := drop2.overall_score - drop1.overall_score
      if drop2.overall_score > 80 then
        let s := { s with exploration_factor := 1 / 5 }
        if drop2.overthrow_percent > 2 then
          { s with coarse_kd_best := s.coarse_kd_best + step_kd * (1 / 2) }
        else
          { s with coarse_kp_best := s.coarse_kp_best + step_kp * (1 / 2) }
      else if score_gradient > 5 then
        let s := { s with exploration_factor := 3 / 10 }
        if prev.overthrow_percent < cfg.max_overthrow_percent then
          { s with coarse_kp_best := s.coarse_kp_best + step_kp }
        else
          { s with coarse_kd_best := s.coarse_kd_best + step_kd }
      else
        let s := { s with exploration_factor := 3 / 5 }
        if prev.overthrow_percent > cfg.max_overthrow_percent then
          { s with coarse_kp_best := s.coarse_kp_best - step_kp,
                   coarse_kd_best := s.coarse_kd_best + step_kd }
        else if prev.overthrow_percent < 1 then
          { s with coarse_kp_best := s.coarse_kp_best + step_kp * (3 / 2) }
        else
          { s with coarse_kd_best := s.coarse_kd_best + step_kd }
    else
      let curr := s.drops.getD (dip - 1) default
      let prev := s.drops.getD (dip - 2) default
      let s :=
        if curr.overall_score > 85 then
          { s with exploration_factor := max (1 / 10) (s.exploration_factor - 1 / 5) }
        else s
      if curr.overall_score < prev.overall_score - 2 then
        { s with coarse_kp_best := s.coarse_kp_best - step_kp,
                 coarse_kd_best := s.coarse_kd_best + step_kd,
                 exploration_factor := s.exploration_factor + 1 / 10 }
      else if curr.overall_score > prev.overall_score then
        let s := { s with exploration_factor := max (1 / 10) (s.exploration_factor - 1 / 10) }
        if curr.overthrow_percent > cfg.max_overthrow_percent then
          { s with coarse_kd_best := s.coarse_kd_best + step_kd }
        else if curr.total_time_ms > cfg.target_coarse_time_ms then
          { s with coarse_kp_best := s.coarse_kp_best + step_kp }
        else s
      else s
  { s with
    coarse_kp_best := max s.coarse_kp_min (min s.coarse_kp_best s.coarse_kp_max),
    coarse_kd_best := max s.coarse_kd_min (min s.coarse_kd_best s.coarse_kd_max) }

/-- The phase-2 start scan inside `calculate_next_params_phase2`
(`ai_tuning.c` lines 476–482): the first drop whose `fine_kp_used` equals
the current best fine Kp, defaulting to 0. -/
def np2_phase2_start (s : ai_tuning_session_t) : Nat :=
  (s.drops.findIdx? (fun d => d.fine_kp_used == s.fine_kp_best)).getD 0

/-- The phase-2 start scan inside `ai_tuning_record_drop` (`ai_tuning.c`
lines 257–264): the first drop whose `fine_kp_used` differs from
`recommended_coarse_kp`, defaulting to 0. -/
def rd_phase2_start (s : ai_tuning_session_t) : Nat :=
  (s.drops.findIdx? (fun d => d.fine_kp_used != s.recommended_coarse_kp)).getD 0

/-- `calculate_next_params_phase2` (`ai_tuning.c` lines 470–572). -/
def calculate_next_params_phase2 (cfg : ai_tuning_config_t)
    (s : ai_tuning_session_t) : ai_tuning_session_t :=
  let total := s.drops_completed
  let p2s := np2_phase2_start s
  let dip := total - p2s
  let prev := s.drops.getD (total - 1) default
  let base_step : ℚ := 1 / 10
  let step_kp := base_step * (4 / 5 + s.exploration_factor * (3 / 5))
  let step_kd := base_step * (4 / 5 + s.exploration_factor * (2 / 5))
  let s :=
    if dip = 1 then
      if prev.overall_score > 85 then
        { s with fine_kp_best := s.fine_kp_best + step_kp * (1 / 2),
                 exploration_factor := 3 / 10 }
      else if prev.overall_score < 75 then
        { s with fine_kp_best := s.fine_kp_best + step_kp * (3 / 2),
                 exploration_factor := 3 / 5 }
      else
        { s with fine_kp_best := s.fine_kp_best + step_kp,
                 exploration_factor := 2 / 5 }
    else if dip = 2 then
      let fd1 := s.drops.getD p2s default
      let fd2 := s.drops.getD (p2s + 1) default
      let score_gradient := fd2.overall_score - fd1.overall_score
      if fd2.overall_score > 90 then
        let s := { s with exploration_factor := 1 / 10 }
        if fd2.overthrow_percent > 1 then
          { s with fine_kd_best := s.fine_kd_best + step_kd * (3 / 10) }
        else s
      else if score_gradient > 5 then
        let s := { s with exploration_factor := 1 / 5 }
        if prev.overthrow_percent < cfg.max_overthrow_percent / 2 then
          { s with fine_kp_best := s.fine_kp_best + step_kp * (4 / 5) }
        else
          { s with fine_kd_best := s.fine_kd_best + step_kd * (4 / 5) }
      else
        let s := { s with exploration_factor := 1 / 2 }
        if prev.overthrow_percent > cfg.max_overthrow_percent then
          { s with fine_kp_best := s.fine_kp_best - step_kp,
                   fine_kd_best := s.fine_kd_best + step_kd }
        else if prev.overthrow_percent < 1 / 2 then
          { s with fine_kp_best := s.fine_kp_best + step_kp * (6 / 5) }
        else
          { s with fine_kd_best := s.fine_kd_best + step_kd }
    else
      let curr := s.drops.getD (total - 1) default
      let prev2 := s.drops.getD (total - 2) default
      let s :=
        if curr.overall_score > 90 then
          { s with exploration_factor := max (1 / 20) (s.exploration_factor - 3 / 20) }
        else s
      if curr.overall_score < prev2.overall_score - 2 then
        { s with fine_kp_best := s.fine_kp_best - step_kp * (4 / 5),
                 fine_kd_best := s.fine_kd_best + step_kd * (4 / 5),
                 exploration_factor := s.exploration_factor + 1 / 10 }
      else if curr.overall_score > prev2.overall_score then
        let s := { s with exploration_factor := max (1 / 20) (s.exploration_factor - 1 / 10) }
        if curr.overthrow_percent > cfg.max_overthrow_percent * (4 / 5) then
          { s with fine_kd_best := s.fine_kd_best + step_kd * (3 / 5) }
        else if curr.fine_time_ms > cfg.target_total_time_ms - cfg.target_coarse_time_ms then
          { s with fine_kp_best := s.fine_kp_best + step_kp * (3 / 5) }
        else s
      else s
  { s with
    fine_kp_best := max s.fine_kp_min (min s.fine_kp_best s.fine_kp_max),
    fine_kd_best := max s.fine_kd_min (min s.fine_kd_best s.fine_kd_max) }

/-- `finalize_recommendations` (`ai_tuning.c` lines 574–623): aggregate
statistics over the recorded drops, freeze the recommended fine gains and
enter `AI_TUNING_COMPLETE`. -/
def finalize_recommendations (s : ai_tuning_session_t) : ai_tuning_session_t :=
  let dl := s.drops.take s.drops_completed
  let total_overthrow := (dl.map (fun d => |d.overthrow_percent|)).sum
  let total_time := (dl.map (fun d => d.total_time_ms)).sum
  let max_overthrow :=
    dl.foldl (fun m d => if |d.overthrow_percent| > m then |d.overthrow_percent| else m) 0
  let min_overthrow :=
    dl.foldl (fun m d => if |d.overthrow_percent| < m then |d.overthrow_percent| else m) 999
  let avg_o := total_overthrow / (s.drops_completed : ℚ)
  let avg_t := total_time / (s.drops_completed : ℚ)
  let variance := (max_overthrow - min_overthrow) / max avg_o (1 / 100)
  { s with avg_overthrow := avg_o, avg_total_time := avg_t,
           consistency_score := 100 * max 0 (1 - variance),
           recommended_fine_kp := s.fine_kp_best,
           recommended_fine_kd := s.fine_kd_best,
           state := .AI_TUNING_COMPLETE }

/-- Phase-1 best-gain update inside `ai_tuning_record_drop` (`ai_tuning.c`
lines 195–201). -/
def phase1_update_best (drop_score : ℚ) (d : ai_drop_telemetry_t)
    (s : ai_tuning_session_t) : ai_tuning_session_t :=
  if s.coarse_best_score < 0 ∨ drop_score > s.coarse_best_score then
    { s with coarse_best_score := drop_score,
             coarse_kp_best := d.coarse_kp_used, coarse_kd_best := d.coarse_kd_used }
  else s

/-- Phase-2 best-gain update inside `ai_tuning_record_drop` (`ai_tuning.c`
lines 245–251). -/
def phase2_update_best (drop_score : ℚ) (d : ai_drop_telemetry_t)
    (s : ai_tuning_session_t) : ai_tuning_session_t :=
  if s.fine_best_score < 0 ∨ drop_score > s.fine_best_score then
    { s with fine_best_score := drop_score,
             fine_kp_best := d.fine_kp_used, fine_kd_best := d.fine_kd_used }
  else s

/-- Phase-1 tail of `ai_tuning_record_drop` (`ai_tuning.c` lines 203–243):
next-parameter planning, the convergence check once the minimum drop count
is reached, and — forced at 5 phase drops — the transition to phase 2
freezing the coarse recommendations from the best coarse gains. -/
def record_drop_phase1 (cfg : ai_tuning_config_t) (s : ai_tuning_session_t) :
    ai_tuning_session_t :=
  let s := calculate_next_params_phase1 cfg s
  let phase_drops := s.drops_completed
  let cs :=
    if phase_drops ≥ s.min_drops_per_phase then
      check_phase_convergence cfg 0 phase_drops s
    else (false, s)
  let s := cs.2
  if cs.1 || phase_drops ≥ 5 then
    { s with recommended_coarse_kp := s.coarse_kp_best,
             recommended_coarse_kd := s.coarse_kd_best,
             state := .AI_TUNING_PHASE_2_FINE,
             consecutive_good_drops := 0 }
  else s

/-- Phase-2 tail of `ai_tuning_record_drop` (`ai_tuning.c` lines 253–284):
next-parameter planning, the heuristic phase-2 start scan, the convergence
check once the heuristic phase drop count reaches the minimum, and
completion (convergence, 5 phase drops, or the overall maximum). -/
def record_drop_phase2 (cfg : ai_tuning_config_t) (s : ai_tuning_session_t) :
    ai_tuning_session_t :=
  let s := calculate_next_params_phase2 cfg s
  let p2s := rd_phase2_start s
  let phase2_drops := s.drops_completed - p2s
  let cs :=
    if phase2_drops ≥ s.min_drops_per_phase then
      check_phase_convergence cfg p2s phase2_drops s
    else (false, s)
  let s := cs.2
  if cs.1 || phase2_drops ≥ 5 || s.drops_completed ≥ s.max_drops_allowed then
    finalize_recommendations s
  else s

/-- The stored copy of the telemetry, with `overall_score` set to the
computed drop score (`ai_tuning.c` lines 173–179). -/
def storedDrop (cfg : ai_tuning_config_t) (t : ai_drop_telemetry_t) :
    ai_drop_telemetry_t :=
  { t with overall_score := calculate_drop_score cfg t }

/-- The session after the telemetry is stored at index `drops_completed`
and the counter incremented (`ai_tuning.c` lines 173–181). -/
def storeSession (cfg : ai_tuning_config_t) (t : ai_drop_telemetry_t)
    (s : ai_tuning_session_t) : ai_tuning_session_t :=
  { s with drops := s.drops ++ [storedDrop cfg t],
           drops_completed := s.drops_completed + 1 }

/-- `ai_tuning_record_drop` (`ai_tuning.c` lines 163–287): reject when the
session is inactive or the drop limit is reached; otherwise score the
telemetry, store it, and run the phase-specific update.  (The C code reads
`g_session.state` after storing the drop; storing does not change the
state, so the branch tests the original state.) -/
def ai_tuning_record_drop (cfg : ai_tuning_config_t) (t : ai_drop_telemetry_t)
    (s : ai_tuning_session_t) : Bool × ai_tuning_session_t :=
  if ¬ ai_tuning_is_active s then (false, s)
  else if s.drops_completed ≥ s.max_drops_allowed then (false, s)
  else if s.state = .AI_TUNING_PHASE_1_COARSE then
    (true, record_drop_phase1 cfg
      (phase1_update_best (calculate_drop_score cfg t) (storedDrop cfg t)
        (storeSession cfg t s)))
  else
    (true, record_drop_phase2 cfg
      (phase2_update_best (calculate_drop_score cfg t) (storedDrop cfg t)
        (storeSession cfg t s)))

/-- A stream of telemetry records fed to `ai_tuning_record_drop` in
order. -/
def run_drops (cfg : ai_tuning_config_t) (s : ai_tuning_session_t)
    (ts : List ai_drop_telemetry_t) : ai_tuning_session_t :=
  ts.foldl (fun s t => (ai_tuning_record_drop cfg t s).2) s

/-- `ai_tuning_get_progress_percent` (`ai_tuning.c` lines 681–686): guard
against a zero target, otherwise `100·drops_completed / total_drops_target`
truncated to the `uint8_t` return type. -/
def ai_tuning_get_progress_percent (s : ai_tuning_session_t) : Nat :=
  if s.total_drops_target = 0 then 0
  else (100 * s.drops_completed) / s.total_drops_target % 256

/-! ### Scoring claims -/

/-- Telemetry record with the given overthrow percentage, total time,
final and target weights, and gains; the remaining fields zero. -/
def mkDrop (ot tt fw tw ckp ckd fkp fkd : ℚ) : ai_drop_telemetry_t :=
  { drop_number := 0, coarse_time_ms := 0, fine_time_ms := 0, total_time_ms := tt,
    final_weight := fw, target_weight := tw, overthrow := fw - tw,
    overthrow_percent := ot, coarse_kp_used := ckp, coarse_kd_used := ckd,
    fine_kp_used := fkp, fine_kd_used := fkd, accuracy_score := 0,
    speed_score := 0, overall_score := 0 }

/-- A drop with zero overthrow, total time exactly the 15 s target, and
final weight equal to the 10-unit target. -/
def perfectDrop : ai_drop_telemetry_t := mkDrop 0 15000 10 10 0 0 0 0

/-- A drop whose overthrow magnitude (7 %) exceeds the 6.67 % limit. -/
def overLimitDrop : ai_drop_telemetry_t := mkDrop 7 0 0 0 0 0 0 0

/-- Claim C7 (telemetry scoring).  Under the installed configuration the
overall score is `(10·overthrow_score + 1·speed_score + 1·accuracy_score)
/ 12` with the three component formulas of the claim; the perfect drop
scores exactly 100 (hence within `1e-5` of it); and any drop whose
overthrow magnitude reaches `max_overthrow_percent` has overthrow
component 0, so its score is `(speed + accuracy)/12`. -/
theorem drop_score_formula :
    (∀ t, calculate_drop_score defaultConfig t =
      (10 * overthrow_score defaultConfig t + 1 * speed_score defaultConfig t +
        1 * accuracy_score t) / 12) ∧
    (∀ t, overthrow_score defaultConfig t =
        100 * max 0 (1 - |t.overthrow_percent| / (667 / 100)) ∧
      speed_score defaultConfig t = 100 * max 0 (2 - t.total_time_ms / 15000) ∧
      accuracy_score t =
        100 * max 0 (1 - 100 * |t.final_weight - t.target_weight| / t.target_weight)) ∧
    (calculate_drop_score defaultConfig perfectDrop = 100 ∧
      |calculate_drop_score defaultConfig perfectDrop - 100| < 1 / 100000) ∧
    (∀ t, |t.overthrow_percent| ≥ defaultConfig.max_overthrow_percent →
      overthrow_score defaultConfig t = 0 ∧
      calculate_drop_score defaultConfig t =
        (speed_score defaultConfig t + accuracy_score t) / 12) := by
  have hform : ∀ t, calculate_drop_score defaultConfig t =
      (10 * overthrow_score defaultConfig t + 1 * speed_score defaultConfig t +
        1 * accuracy_score t) / 12 := by
    intro t
    simp only [calculate_drop_score, defaultConfig]
    ring_nf
  refine ⟨hform, ?_, ?_, ?_⟩
  · intro t
    refine ⟨rfl, rfl, rfl⟩
  · constructor
    · norm_num [calculate_drop_score, overthrow_score, speed_score, accuracy_score,
        defaultConfig, perfectDrop, mkDrop]
    · norm_num [calculate_drop_score, overthrow_score, speed_score, accuracy_score,
        defaultConfig, perfectDrop, mkDrop]
  · intro t ht
    have hzero : overthrow_score defaultConfig t = 0 := by
      have hpos : (0 : ℚ) < 667 / 100 := by norm_num
      have h1 : (1 : ℚ) ≤ |t.overthrow_percent| / (667 / 100) := by
        rw [le_div_iff hpos]
        simpa [defaultConfig] using ht
      have h2 : (1 : ℚ) - |t.overthrow_percent| / (667 / 100) ≤ 0 := by linarith
      simp only [overthrow_score, defaultConfig]
      rw [max_eq_left h2]
      ring
    refine ⟨hzero, ?_⟩
    rw [hform t, hzero]
    ring

/-- Witness for claim C7: the zero-component part applied to a drop with
7 % overthrow (above the 6.67 % limit). -/
theorem drop_score_formula_witness :
    overthrow_score defaultConfig overLimitDrop = 0 ∧
    calculate_drop_score defaultConfig overLimitDrop =
      (speed_score defaultConfig overLimitDrop + accuracy_score overLimitDrop) / 12 :=
  drop_score_formula.2.2.2 overLimitDrop
    (by norm_num [defaultConfig, overLimitDrop, mkDrop])

/-! ### Field-preservation lemmas for the tuning step functions -/

theorem check_conv_fields (cfg : ai_tuning_config_t) (i n : Nat) (s : ai_tuning_session_t) :
    ((check_phase_convergence cfg i n s).2).state = s.state ∧
    ((check_phase_convergence cfg i n s).2).drops = s.drops ∧
    ((check_phase_convergence cfg i n s).2).drops_completed = s.drops_completed ∧
    ((check_phase_convergence cfg i n s).2).max_drops_allowed = s.max_drops_allowed ∧
    ((check_phase_convergence cfg i n s).2).min_drops_per_phase = s.min_drops_per_phase ∧
    ((check_phase_convergence cfg i n s).2).coarse_kp_best = s.coarse_kp_best ∧
    ((check_phase_convergence cfg i n s).2).coarse_kd_best = s.coarse_kd_best ∧
    ((check_phase_convergence cfg i n s).2).coarse_best_score = s.coarse_best_score ∧
    ((check_phase_convergence cfg i n s).2).fine_kp_best = s.fine_kp_best ∧
    ((check_phase_convergence cfg i n s).2).fine_kd_best = s.fine_kd_best ∧
    ((check_phase_convergence cfg i n s).2).fine_best_score = s.fine_best_score ∧
    ((check_phase_convergence cfg i n s).2).recommended_coarse_kp = s.recommended_coarse_kp ∧
    ((check_phase_convergence cfg i n s).2).recommended_coarse_kd = s.recommended_coarse_kd := by
  simp only [check_phase_convergence]
  split_ifs <;> simp

@[simp] theorem check_conv_state (cfg : ai_tuning_config_t) (i n : Nat) (s : ai_tuning_session_t) :
    ((check_phase_convergence cfg i n s).2).state = s.state := (check_conv_fields cfg i n s).1

@[simp] theorem check_conv_drops (cfg : ai_tuning_config_t) (i n : Nat) (s : ai_tuning_session_t) :
    ((check_phase_convergence cfg i n s).2).drops = s.drops := (check_conv_fields cfg i n s).2.1

@[simp] theorem check_conv_drops_completed (cfg : ai_tuning_config_t) (i n : Nat) (s : ai_tuning_session_t) :
    ((check_phase_convergence cfg i n s).2).drops_completed = s.drops_completed := (check_conv_fields cfg i n s).2.2.1

@[simp] theorem check_conv_max_drops_allowed (cfg : ai_tuning_config_t) (i n : Nat) (s : ai_tuning_session_t) :
    ((check_phase_convergence cfg i n s).2).max_drops_allowed = s.max_drops_allowed := (check_conv_fields cfg i n s).2.2.2.1

@[simp] theorem check_conv_min_drops_per_phase (cfg : ai_tuning_config_t) (i n : Nat) (s : ai_tuning_session_t) :
    ((check_phase_convergence cfg i n s).2).min_drops_per_phase = s.min_drops_per_phase := (check_conv_fields cfg i n s).2.2.2.2.1

@[simp] theorem check_conv_coarse_kp_best (cfg : ai_tuning_config_t) (i n : Nat) (s : ai_tuning_session_t) :
    ((check_phase_convergence cfg i n s).2).coarse_kp_best = s.coarse_kp_best := (check_conv_fields cfg i n s).2.2.2.2.2.1

@[simp] theorem check_conv_coarse_kd_best (cfg : ai_tuning_config_t) (i n : Nat) (s : ai_tuning_session_t) :
    ((check_phase_convergence cfg i n s).2).coarse_kd_best = s.coarse_kd_best := (check_conv_fields cfg i n s).2.2.2.2.2.2.1

@[simp] theorem check_conv_coarse_best_score (cfg : ai_tuning_config_t) (i n : Nat) (s : ai_tuning_session_t) :
    ((check_phase_convergence cfg i n s).2).coarse_best_score = s.coarse_best_score := (check_conv_fields cfg i n s).2.2.2.2.2.2.2.1

@[simp] theorem check_conv_fine_kp_best (cfg : ai_tuning_config_t) (i n : Nat) (s : ai_tuning_session_t) :
    ((check_phase_convergence cfg i n s).2).fine_kp_best = s.fine_kp_best := (check_conv_fields cfg i n s).2.2.2.2.2.2.2.2.1

@[simp] theorem check_conv_fine_kd_best (cfg : ai_tuning_config_t) (i n : Nat) (s : ai_tuning_session_t) :
    ((check_phase_convergence cfg i n s).2).fine_kd_best = s.fine_kd_best := (check_conv_fields cfg i n s).2.2.2.2.2.2.2.2.2.1

@[simp] theorem check_conv_fine_best_score (cfg : ai_tuning_config_t) (i n : Nat) (s : ai_tuning_session_t) :
    ((check_phase_convergence cfg i n s).2).fine_best_score = s.fine_best_score := (check_conv_fields cfg i n s).2.2.2.2.2.2.2.2.2.2.1

@[simp] theorem check_conv_recommended_coarse_kp (cfg : ai_tuning_config_t) (i n : Nat) (s : ai_tuning_session_t) :
    ((check_phase_convergence cfg i n s).2).recommended_coarse_kp = s.recommended_coarse_kp := (check_conv_fields cfg i n s).2.2.2.2.2.2.2.2.2.2.2.1

@[simp] theorem check_conv_recommended_coarse_kd (cfg : ai_tuning_config_t) (i n : Nat) (s : ai_tuning_session_t) :
    ((check_phase_convergence cfg i n s).2).recommended_coarse_kd = s.recommended_coarse_kd := (check_conv_fields cfg i n s).2.2.2.2.2.2.2.2.2.2.2.2

theorem np1_fields (cfg : ai_tuning_config_t) (s : ai_tuning_session_t) :
    (calculate_next_params_phase1 cfg s).state = s.state ∧
    (calculate_next_params_phase1 cfg s).drops = s.drops ∧
    (calculate_next_params_phase1 cfg s).drops_completed = s.drops_completed ∧
    (calculate_next_params_phase1 cfg s).max_drops_allowed = s.max_drops_allowed ∧
    (calculate_next_params_phase1 cfg s).min_drops_per_phase = s.min_drops_per_phase ∧
    (calculate_next_params_phase1 cfg s).consecutive_good_drops = s.consecutive_good_drops ∧
    (calculate_next_params_phase1 cfg s).coarse_best_score = s.coarse_best_score ∧
    (calculate_next_params_phase1 cfg s).fine_kp_best = s.fine_kp_best ∧
    (calculate_next_params_phase1 cfg s).fine_kd_best = s.fine_kd_best ∧
    (calculate_next_params_phase1 cfg s).fine_best_score = s.fine_best_score ∧
    (calculate_next_params_phase1 cfg s).recommended_coarse_kp = s.recommended_coarse_kp ∧
    (calculate_next_params_phase1 cfg s).recommended_coarse_kd = s.recommended_coarse_kd := by
  simp only [calculate_next_params_phase1]
  split_ifs <;> simp

@[simp] theorem np1_state (cfg : ai_tuning_config_t) (s : ai_tuning_session_t) :
    (calculate_next_params_phase1 cfg s).state = s.state := (np1_fields cfg s).1

@[simp] theorem np1_drops (cfg : ai_tuning_config_t) (s : ai_tuning_session_t) :
    (calculate_next_params_phase1 cfg s).drops = s.drops := (np1_fields cfg s).2.1

@[simp] theorem np1_drops_completed (cfg : ai_tuning_config_t) (s : ai_tuning_session_t) :
    (calculate_next_params_phase1 cfg s).drops_completed = s.drops_completed := (np1_fields cfg s).2.2.1

@[simp] theorem np1_max_drops_allowed (cfg : ai_tuning_config_t) (s : ai_tuning_session_t) :
    (calculate_next_params_phase1 cfg s).max_drops_allowed = s.max_drops_allowed := (np1_fields cfg s).2.2.2.1

@[simp] theorem np1_min_drops_per_phase (cfg : ai_tuning_config_t) (s : ai_tuning_session_t) :
    (calculate_next_params_phase1 cfg s).min_drops_per_phase = s.min_drops_per_phase := (np1_fields cfg s).2.2.2.2.1

@[simp] theorem np1_consecutive_good_drops (cfg : ai_tuning_config_t) (s : ai_tuning_session_t) :
    (calculate_next_params_phase1 cfg s).consecutive_good_drops = s.consecutive_good_drops := (np1_fields cfg s).2.2.2.2.2.1

@[simp] theorem np1_coarse_best_score (cfg : ai_tuning_config_t) (s : ai_tuning_session_t) :
    (calculate_next_params_phase1 cfg s).coarse_best_score = s.coarse_best_score := (np1_fields cfg s).2.2.2.2.2.2.1

@[simp] theorem np1_fine_kp_best (cfg : ai_tuning_config_t) (s : ai_tuning_session_t) :
    (calculate_next_params_phase1 cfg s).fine_kp_best = s.fine_kp_best := (np1_fields cfg s).2.2.2.2.2.2.2.1

@[simp] theorem np1_fine_kd_best (cfg : ai_tuning_config_t) (s : ai_tuning_session_t) :
    (calculate_next_params_phase1 cfg s).fine_kd_best = s.fine_kd_best := (np1_fields cfg s).2.2.2.2.2.2.2.2.1

@[simp] theorem np1_fine_best_score (cfg : ai_tuning_config_t) (s : ai_tuning_session_t) :
    (calculate_next_params_phase1 cfg s).fine_best_score = s.fine_best_score := (np1_fields cfg s).2.2.2.2.2.2.2.2.2.1

@[simp] theorem np1_recommended_coarse_kp (cfg : ai_tuning_config_t) (s : ai_tuning_session_t) :
    (calculate_next_params_phase1 cfg s).recommended_coarse_kp = s.recommended_coarse_kp := (np1_fields cfg s).2.2.2.2.2.2.2.2.2.2.1

@[simp] theorem np1_recommended_coarse_kd (cfg : ai_tuning_config_t) (s : ai_tuning_session_t) :
    (calculate_next_params_phase1 cfg s).recommended_coarse_kd = s.recommended_coarse_kd := (np1_fields cfg s).2.2.2.2.2.2.2.2.2.2.2

theorem np2_fields (cfg : ai_tuning_config_t) (s : ai_tuning_session_t) :
    (calculate_next_params_phase2 cfg s).state = s.state ∧
    (calculate_next_params_phase2 cfg s).drops = s.drops ∧
    (calculate_next_params_phase2 cfg s).drops_completed = s.drops_completed ∧
    (calculate_next_params_phase2 cfg s).max_drops_allowed = s.max_drops_allowed ∧
    (calculate_next_params_phase2 cfg s).min_drops_per_phase = s.min_drops_per_phase ∧
    (calculate_next_params_phase2 cfg s).consecutive_good_drops = s.consecutive_good_drops ∧
    (calculate_next_params_phase2 cfg s).coarse_kp_best = s.coarse_kp_best ∧
    (calculate_next_params_phase2 cfg s).coarse_kd_best = s.coarse_kd_best ∧
    (calculate_next_params_phase2 cfg s).coarse_best_score = s.coarse_best_score ∧
    (calculate_next_params_phase2 cfg s).fine_best_score = s.fine_best_score ∧
    (calculate_next_params_phase2 cfg s).recommended_coarse_kp = s.recommended_coarse_kp ∧
    (calculate_next_params_phase2 cfg s).recommended_coarse_kd = s.recommended_coarse_kd := by
  simp only [calculate_next_params_phase2]
  split_ifs <;> simp

@[simp] theorem np2_state (cfg : ai_tuning_config_t) (s : ai_tuning_session_t) :
    (calculate_next_params_phase2 cfg s).state = s.state := (np2_fields cfg s).1

@[simp] theorem np2_drops (cfg : ai_tuning_config_t) (s : ai_tuning_session_t) :
    (calculate_next_params_phase2 cfg s).drops = s.drops := (np2_fields cfg s).2.1

@[simp] theorem np2_drops_completed (cfg : ai_tuning_config_t) (s : ai_tuning_session_t) :
    (calculate_next_params_phase2 cfg s).drops_completed = s.drops_completed := (np2_fields cfg s).2.2.1

@[simp] theorem np2_max_drops_allowed (cfg : ai_tuning_config_t) (s : ai_tuning_session_t) :
    (calculate_next_params_phase2 cfg s).max_drops_allowed = s.max_drops_allowed := (np2_fields cfg s).2.2.2.1

@[simp] theorem np2_min_drops_per_phase (cfg : ai_tuning_config_t) (s : ai_tuning_session_t) :
    (calculate_next_params_phase2 cfg s).min_drops_per_phase = s.min_drops_per_phase := (np2_fields cfg s).2.2.2.2.1

@[simp] theorem np2_consecutive_good_drops (cfg : ai_tuning_config_t) (s : ai_tuning_session_t) :
    (calculate_next_params_phase2 cfg s).consecutive_good_drops = s.consecutive_good_drops := (np2_fields cfg s).2.2.2.2.2.1

@[simp] theorem np2_coarse_kp_best (cfg : ai_tuning_config_t) (s : ai_tuning_session_t) :
    (calculate_next_params_phase2 cfg s).coarse_kp_best = s.coarse_kp_best := (np2_fields cfg s).2.2.2.2.2.2.1

@[simp] theorem np2_coarse_kd_best (cfg : ai_tuning_config_t) (s : ai_tuning_session_t) :
    (calculate_next_params_phase2 cfg s).coarse_kd_best = s.coarse_kd_best := (np2_fields cfg s).2.2.2.2.2.2.2.1

@[simp] theorem np2_coarse_best_score (cfg : ai_tuning_config_t) (s : ai_tuning_session_t) :
    (calculate_next_params_phase2 cfg s).coarse_best_score = s.coarse_best_score := (np2_fields cfg s).2.2.2.2.2.2.2.2.1

@[simp] theorem np2_fine_best_score (cfg : ai_tuning_config_t) (s : ai_tuning_session_t) :
    (calculate_next_params_phase2 cfg s).fine_best_score = s.fine_best_score := (np2_fields cfg s).2.2.2.2.2.2.2.2.2.1

@[simp] theorem np2_recommended_coarse_kp (cfg : ai_tuning_config_t) (s : ai_tuning_session_t) :
    (calculate_next_params_phase2 cfg s).recommended_coarse_kp = s.recommended_coarse_kp := (np2_fields cfg s).2.2.2.2.2.2.2.2.2.2.1

@[simp] theorem np2_recommended_coarse_kd (cfg : ai_tuning_config_t) (s : ai_tuning_session_t) :
    (calculate_next_params_phase2 cfg s).recommended_coarse_kd = s.recommended_coarse_kd := (np2_fields cfg s).2.2.2.2.2.2.2.2.2.2.2

theorem finalize_fields (s : ai_tuning_session_t) :
    (finalize_recommendations s).drops = s.drops ∧
    (finalize_recommendations s).drops_completed = s.drops_completed ∧
    (finalize_recommendations s).max_drops_allowed = s.max_drops_allowed ∧
    (finalize_recommendations s).min_drops_per_phase = s.min_drops_per_phase ∧
    (finalize_recommendations s).coarse_kp_best = s.coarse_kp_best ∧
    (finalize_recommendations s).coarse_kd_best = s.coarse_kd_best ∧
    (finalize_recommendations s).coarse_best_score = s.coarse_best_score ∧
    (finalize_recommendations s).fine_kp_best = s.fine_kp_best ∧
    (finalize_recommendations s).fine_kd_best = s.fine_kd_best ∧
    (finalize_recommendations s).fine_best_score = s.fine_best_score := by
  simp only [finalize_recommendations]
  simp

@[simp] theorem finalize_drops (s : ai_tuning_session_t) :
    (finalize_recommendations s).drops = s.drops := (finalize_fields s).1

@[simp] theorem finalize_drops_completed (s : ai_tuning_session_t) :
    (finalize_recommendations s).drops_completed = s.drops_completed := (finalize_fields s).2.1

@[simp] theorem finalize_max_drops_allowed (s : ai_tuning_session_t) :
    (finalize_recommendations s).max_drops_allowed = s.max_drops_allowed := (finalize_fields s).2.2.1

@[simp] theorem finalize_min_drops_per_phase (s : ai_tuning_session_t) :
    (finalize_recommendations s).min_drops_per_phase = s.min_drops_per_phase := (finalize_fields s).2.2.2.1

@[simp] theorem finalize_coarse_kp_best (s : ai_tuning_session_t) :
    (finalize_recommendations s).coarse_kp_best = s.coarse_kp_best := (finalize_fields s).2.2.2.2.1

@[simp] theorem finalize_coarse_kd_best (s : ai_tuning_session_t) :
    (finalize_recommendations s).coarse_kd_best = s.coarse_kd_best := (finalize_fields s).2.2.2.2.2.1

@[simp] theorem finalize_coarse_best_score (s : ai_tuning_session_t) :
    (finalize_recommendations s).coarse_best_score = s.coarse_best_score := (finalize_fields s).2.2.2.2.2.2.1

@[simp] theorem finalize_fine_kp_best (s : ai_tuning_session_t) :
    (finalize_recommendations s).fine_kp_best = s.fine_kp_best := (finalize_fields s).2.2.2.2.2.2.2.1

@[simp] theorem finalize_fine_kd_best (s : ai_tuning_session_t) :
    (finalize_recommendations s).fine_kd_best = s.fine_kd_best := (finalize_fields s).2.2.2.2.2.2.2.2.1

@[simp] theorem finalize_fine_best_score (s : ai_tuning_session_t) :
    (finalize_recommendations s).fine_best_score = s.fine_best_score := (finalize_fields s).2.2.2.2.2.2.2.2.2

theorem p1ub_fields (score : ℚ) (d : ai_drop_telemetry_t) (s : ai_tuning_session_t) :
    (phase1_update_best score d s).state = s.state ∧
    (phase1_update_best score d s).drops = s.drops ∧
    (phase1_update_best score d s).drops_completed = s.drops_completed ∧
    (phase1_update_best score d s).max_drops_allowed = s.max_drops_allowed ∧
    (phase1_update_best score d s).min_drops_per_phase = s.min_drops_per_phase ∧
    (phase1_update_best score d s).consecutive_good_drops = s.consecutive_good_drops ∧
    (phase1_update_best score d s).fine_kp_best = s.fine_kp_best ∧
    (phase1_update_best score d s).fine_kd_best = s.fine_kd_best ∧
    (phase1_update_best score d s).fine_best_score = s.fine_best_score ∧
    (phase1_update_best score d s).recommended_coarse_kp = s.recommended_coarse_kp ∧
    (phase1_update_best score d s).recommended_coarse_kd = s.recommended_coarse_kd := by
  simp only [phase1_update_best]
  split_ifs <;> simp

@[simp] theorem p1ub_state (score : ℚ) (d : ai_drop_telemetry_t) (s : ai_tuning_session_t) :
    (phase1_update_best score d s).state = s.state := (p1ub_fields score d s).1

@[simp] theorem p1ub_drops (score : ℚ) (d : ai_drop_telemetry_t) (s : ai_tuning_session_t) :
    (phase1_update_best score d s).drops = s.drops := (p1ub_fields score d s).2.1

@[simp] theorem p1ub_drops_completed (score : ℚ) (d : ai_drop_telemetry_t) (s : ai_tuning_session_t) :
    (phase1_update_best score d s).drops_completed = s.drops_completed := (p1ub_fields score d s).2.2.1

@[simp] theorem p1ub_max_drops_allowed (score : ℚ) (d : ai_drop_telemetry_t) (s : ai_tuning_session_t) :
    (phase1_update_best score d s).max_drops_allowed = s.max_drops_allowed := (p1ub_fields score d s).2.2.2.1

@[simp] theorem p1ub_min_drops_per_phase (score : ℚ) (d : ai_drop_telemetry_t) (s : ai_tuning_session_t) :
    (phase1_update_best score d s).min_drops_per_phase = s.min_drops_per_phase := (p1ub_fields score d s).2.2.2.2.1

@[simp] theorem p1ub_consecutive_good_drops (score : ℚ) (d : ai_drop_telemetry_t) (s : ai_tuning_session_t) :
    (phase1_update_best score d s).consecutive_good_drops = s.consecutive_good_drops := (p1ub_fields score d s).2.2.2.2.2.1

@[simp] theorem p1ub_fine_kp_best (score : ℚ) (d : ai_drop_telemetry_t) (s : ai_tuning_session_t) :
    (phase1_update_best score d s).fine_kp_best = s.fine_kp_best := (p1ub_fields score d s).2.2.2.2.2.2.1

@[simp] theorem p1ub_fine_kd_best (score : ℚ) (d : ai_drop_telemetry_t) (s : ai_tuning_session_t) :
    (phase1_update_best score d s).fine_kd_best = s.fine_kd_best := (p1ub_fields score d s).2.2.2.2.2.2.2.1

@[simp] theorem p1ub_fine_best_score (score : ℚ) (d : ai_drop_telemetry_t) (s : ai_tuning_session_t) :
    (phase1_update_best score d s).fine_best_score = s.fine_best_score := (p1ub_fields score d s).2.2.2.2.2.2.2.2.1

@[simp] theorem p1ub_recommended_coarse_kp (score : ℚ) (d : ai_drop_telemetry_t) (s : ai_tuning_session_t) :
    (phase1_update_best score d s).recommended_coarse_kp = s.recommended_coarse_kp := (p1ub_fields score d s).2.2.2.2.2.2.2.2.2.1

@[simp] theorem p1ub_recommended_coarse_kd (score : ℚ) (d : ai_drop_telemetry_t) (s : ai_tuning_session_t) :
    (phase1_update_best score d s).recommended_coarse_kd = s.recommended_coarse_kd := (p1ub_fields score d s).2.2.2.2.2.2.2.2.2.2

theorem p2ub_fields (score : ℚ) (d : ai_drop_telemetry_t) (s : ai_tuning_session_t) :
    (phase2_update_best score d s).state = s.state ∧
    (phase2_update_best score d s).drops = s.drops ∧
    (phase2_update_best score d s).drops_completed = s.drops_completed ∧
    (phase2_update_best score d s).max_drops_allowed = s.max_drops_allowed ∧
    (phase2_update_best score d s).min_drops_per_phase = s.min_drops_per_phase ∧
    (phase2_update_best score d s).consecutive_good_drops = s.consecutive_good_drops ∧
    (phase2_update_best score d s).coarse_kp_best = s.coarse_kp_best ∧
    (phase2_update_best score d s).coarse_kd_best = s.coarse_kd_best ∧
    (phase2_update_best score d s).coarse_best_score = s.coarse_best_score ∧
    (phase2_update_best score d s).recommended_coarse_kp = s.recommended_coarse_kp ∧
    (phase2_update_best score d s).recommended_coarse_kd = s.recommended_coarse_kd := by
  simp only [phase2_update_best]
  split_ifs <;> simp

@[simp] theorem p2ub_state (score : ℚ) (d : ai_drop_telemetry_t) (s : ai_tuning_session_t) :
    (phase2_update_best score d s).state = s.state := (p2ub_fields score d s).1

@[simp] theorem p2ub_drops (score : ℚ) (d : ai_drop_telemetry_t) (s : ai_tuning_session_t) :
    (phase2_update_best score d s).drops = s.drops := (p2ub_fields score d s).2.1

@[simp] theorem p2ub_drops_completed (score : ℚ) (d : ai_drop_telemetry_t) (s : ai_tuning_session_t) :
    (phase2_update_best score d s).drops_completed = s.drops_completed := (p2ub_fields score d s).2.2.1

@[simp] theorem p2ub_max_drops_allowed (score : ℚ) (d : ai_drop_telemetry_t) (s : ai_tuning_session_t) :
    (phase2_update_best score d s).max_drops_allowed = s.max_drops_allowed := (p2ub_fields score d s).2.2.2.1

@[simp] theorem p2ub_min_drops_per_phase (score : ℚ) (d : ai_drop_telemetry_t) (s : ai_tuning_session_t) :
    (phase2_update_best score d s).min_drops_per_phase = s.min_drops_per_phase := (p2ub_fields score d s).2.2.2.2.1

@[simp] theorem p2ub_consecutive_good_drops (score : ℚ) (d : ai_drop_telemetry_t) (s : ai_tuning_session_t) :
    (phase2_update_best score d s).consecutive_good_drops = s.consecutive_good_drops := (p2ub_fields score d s).2.2.2.2.2.1

@[simp] theorem p2ub_coarse_kp_best (score : ℚ) (d : ai_drop_telemetry_t) (s : ai_tuning_session_t) :
    (phase2_update_best score d s).coarse_kp_best = s.coarse_kp_best := (p2ub_fields score d s).2.2.2.2.2.2.1

@[simp] theorem p2ub_coarse_kd_best (score : ℚ) (d : ai_drop_telemetry_t) (s : ai_tuning_session_t) :
    (phase2_update_best score d s).coarse_kd_best = s.coarse_kd_best := (p2ub_fields score d s).2.2.2.2.2.2.2.1

@[simp] theorem p2ub_coarse_best_score (score : ℚ) (d : ai_drop_telemetry_t) (s : ai_tuning_session_t) :
    (phase2_update_best score d s).coarse_best_score = s.coarse_best_score := (p2ub_fields score d s).2.2.2.2.2.2.2.2.1

@[simp] theorem p2ub_recommended_coarse_kp (score : ℚ) (d : ai_drop_telemetry_t) (s : ai_tuning_session_t) :
    (phase2_update_best score d s).recommended_coarse_kp = s.recommended_coarse_kp := (p2ub_fields score d s).2.2.2.2.2.2.2.2.2.1

@[simp] theorem p2ub_recommended_coarse_kd (score : ℚ) (d : ai_drop_telemetry_t) (s : ai_tuning_session_t) :
    (phase2_update_best score d s).recommended_coarse_kd = s.recommended_coarse_kd := (p2ub_fields score d s).2.2.2.2.2.2.2.2.2.2

@[simp] theorem finalize_state (s : ai_tuning_session_t) :
    (finalize_recommendations s).state = ai_tuning_state_t.AI_TUNING_COMPLETE := by
  simp only [finalize_recommendations]

theorem rdp1_fields (cfg : ai_tuning_config_t) (s : ai_tuning_session_t) :
    (record_drop_phase1 cfg s).drops = s.drops ∧
    (record_drop_phase1 cfg s).drops_completed = s.drops_completed ∧
    (record_drop_phase1 cfg s).max_drops_allowed = s.max_drops_allowed ∧
    (record_drop_phase1 cfg s).min_drops_per_phase = s.min_drops_per_phase ∧
    (record_drop_phase1 cfg s).coarse_best_score = s.coarse_best_score ∧
    (record_drop_phase1 cfg s).fine_kp_best = s.fine_kp_best ∧
    (record_drop_phase1 cfg s).fine_kd_best = s.fine_kd_best ∧
    (record_drop_phase1 cfg s).fine_best_score = s.fine_best_score := by
  simp only [record_drop_phase1]
  split_ifs <;> simp

@[simp] theorem rdp1_drops (cfg : ai_tuning_config_t) (s : ai_tuning_session_t) :
    (record_drop_phase1 cfg s).drops = s.drops := (rdp1_fields cfg s).1

@[simp] theorem rdp1_drops_completed (cfg : ai_tuning_config_t) (s : ai_tuning_session_t) :
    (record_drop_phase1 cfg s).drops_completed = s.drops_completed := (rdp1_fields cfg s).2.1

@[simp] theorem rdp1_max_drops_allowed (cfg : ai_tuning_config_t) (s : ai_tuning_session_t) :
    (record_drop_phase1 cfg s).max_drops_allowed = s.max_drops_allowed := (rdp1_fields cfg s).2.2.1

@[simp] theorem rdp1_min_drops_per_phase (cfg : ai_tuning_config_t) (s : ai_tuning_session_t) :
    (record_drop_phase1 cfg s).min_drops_per_phase = s.min_drops_per_phase := (rdp1_fields cfg s).2.2.2.1

@[simp] theorem rdp1_coarse_best_score (cfg : ai_tuning_config_t) (s : ai_tuning_session_t) :
    (record_drop_phase1 cfg s).coarse_best_score = s.coarse_best_score := (rdp1_fields cfg s).2.2.2.2.1

@[simp] theorem rdp1_fine_kp_best (cfg : ai_tuning_config_t) (s : ai_tuning_session_t) :
    (record_drop_phase1 cfg s).fine_kp_best = s.fine_kp_best := (rdp1_fields cfg s).2.2.2.2.2.1

@[simp] theorem rdp1_fine_kd_best (cfg : ai_tuning_config_t) (s : ai_tuning_session_t) :
    (record_drop_phase1 cfg s).fine_kd_best = s.fine_kd_best := (rdp1_fields cfg s).2.2.2.2.2.2.1

@[simp] theorem rdp1_fine_best_score (cfg : ai_tuning_config_t) (s : ai_tuning_session_t) :
    (record_drop_phase1 cfg s).fine_best_score = s.fine_best_score := (rdp1_fields cfg s).2.2.2.2.2.2.2

theorem rdp2_fields (cfg : ai_tuning_config_t) (s : ai_tuning_session_t) :
    (record_drop_phase2 cfg s).drops = s.drops ∧
    (record_drop_phase2 cfg s).drops_completed = s.drops_completed ∧
    (record_drop_phase2 cfg s).max_drops_allowed = s.max_drops_allowed ∧
    (record_drop_phase2 cfg s).min_drops_per_phase = s.min_drops_per_phase ∧
    (record_drop_phase2 cfg s).coarse_kp_best = s.coarse_kp_best ∧
    (record_drop_phase2 cfg s).coarse_kd_best = s.coarse_kd_best ∧
    (record_drop_phase2 cfg s).coarse_best_score = s.coarse_best_score ∧
    (record_drop_phase2 cfg s).fine_best_score = s.fine_best_score := by
  simp only [record_drop_phase2]
  split_ifs <;> simp

@[simp] theorem rdp2_drops (cfg : ai_tuning_config_t) (s : ai_tuning_session_t) :
    (record_drop_phase2 cfg s).drops = s.drops := (rdp2_fields cfg s).1

@[simp] theorem rdp2_drops_completed (cfg : ai_tuning_config_t) (s : ai_tuning_session_t) :
    (record_drop_phase2 cfg s).drops_completed = s.drops_completed := (rdp2_fields cfg s).2.1

@[simp] theorem rdp2_max_drops_allowed (cfg : ai_tuning_config_t) (s : ai_tuning_session_t) :
    (record_drop_phase2 cfg s).max_drops_allowed = s.max_drops_allowed := (rdp2_fields cfg s).2.2.1

@[simp] theorem rdp2_min_drops_per_phase (cfg : ai_tuning_config_t) (s : ai_tuning_session_t) :
    (record_drop_phase2 cfg s).min_drops_per_phase = s.min_drops_per_phase := (rdp2_fields cfg s).2.2.2.1

@[simp] theorem rdp2_coarse_kp_best (cfg : ai_tuning_config_t) (s : ai_tuning_session_t) :
    (record_drop_phase2 cfg s).coarse_kp_best = s.coarse_kp_best := (rdp2_fields cfg s).2.2.2.2.1

@[simp] theorem rdp2_coarse_kd_best (cfg : ai_tuning_config_t) (s : ai_tuning_session_t) :
    (record_drop_phase2 cfg s).coarse_kd_best = s.coarse_kd_best := (rdp2_fields cfg s).2.2.2.2.2.1

@[simp] theorem rdp2_coarse_best_score (cfg : ai_tuning_config_t) (s : ai_tuning_session_t) :
    (record_drop_phase2 cfg s).coarse_best_score = s.coarse_best_score := (rdp2_fields cfg s).2.2.2.2.2.2.1

@[simp] theorem rdp2_fine_best_score (cfg : ai_tuning_config_t) (s : ai_tuning_session_t) :
    (record_drop_phase2 cfg s).fine_best_score = s.fine_best_score := (rdp2_fields cfg s).2.2.2.2.2.2.2

/-! ### Drop-limit and best-score invariants -/

theorem drop_score_nonneg (t : ai_drop_telemetry_t) :
    0 ≤ calculate_drop_score defaultConfig t := by
  have h1 : (0:ℚ) ≤ overthrow_score defaultConfig t := by
    rw [overthrow_score]
    exact mul_nonneg (by norm_num) (le_max_left 0 _)
  have h2 : (0:ℚ) ≤ speed_score defaultConfig t := by
    rw [speed_score]
    exact mul_nonneg (by norm_num) (le_max_left 0 _)
  have h3 : (0:ℚ) ≤ accuracy_score t := by
    rw [accuracy_score]
    exact mul_nonneg (by norm_num) (le_max_left 0 _)
  have hw1 : defaultConfig.weight_overthrow = (10:ℚ) := rfl
  have hw2 : defaultConfig.weight_time = (1:ℚ) := rfl
  rw [calculate_drop_score, hw1, hw2]
  apply div_nonneg
  · linarith
  · norm_num

theorem p1ub_coarse_mono (score : ℚ) (d : ai_drop_telemetry_t)
    (s : ai_tuning_session_t) (h : 0 ≤ score) :
    s.coarse_best_score ≤ (phase1_update_best score d s).coarse_best_score := by
  simp only [phase1_update_best]
  split_ifs with hc
  · have hgoal : s.coarse_best_score ≤ score := by
      rcases hc with h1 | h1 <;> linarith
    simpa using hgoal
  · simp

theorem p2ub_fine_mono (score : ℚ) (d : ai_drop_telemetry_t)
    (s : ai_tuning_session_t) (h : 0 ≤ score) :
    s.fine_best_score ≤ (phase2_update_best score d s).fine_best_score := by
  simp only [phase2_update_best]
  split_ifs with hc
  · have hgoal : s.fine_best_score ≤ score := by
      rcases hc with h1 | h1 <;> linarith
    simpa using hgoal
  · simp

@[simp] theorem storeSession_drops_completed (cfg : ai_tuning_config_t)
    (t : ai_drop_telemetry_t) (s : ai_tuning_session_t) :
    (storeSession cfg t s).drops_completed = s.drops_completed + 1 := rfl

@[simp] theorem storeSession_max_drops_allowed (cfg : ai_tuning_config_t)
    (t : ai_drop_telemetry_t) (s : ai_tuning_session_t) :
    (storeSession cfg t s).max_drops_allowed = s.max_drops_allowed := rfl

@[simp] theorem storeSession_min_drops_per_phase (cfg : ai_tuning_config_t)
    (t : ai_drop_telemetry_t) (s : ai_tuning_session_t) :
    (storeSession cfg t s).min_drops_per_phase = s.min_drops_per_phase := rfl

@[simp] theorem storeSession_state (cfg : ai_tuning_config_t)
    (t : ai_drop_telemetry_t) (s : ai_tuning_session_t) :
    (storeSession cfg t s).state = s.state := rfl

@[simp] theorem storeSession_drops (cfg : ai_tuning_config_t)
    (t : ai_drop_telemetry_t) (s : ai_tuning_session_t) :
    (storeSession cfg t s).drops = s.drops ++ [storedDrop cfg t] := rfl

@[simp] theorem storeSession_coarse_best_score (cfg : ai_tuning_config_t)
    (t : ai_drop_telemetry_t) (s : ai_tuning_session_t) :
    (storeSession cfg t s).coarse_best_score = s.coarse_best_score := rfl

@[simp] theorem storeSession_fine_best_score (cfg : ai_tuning_config_t)
    (t : ai_drop_telemetry_t) (s : ai_tuning_session_t) :
    (storeSession cfg t s).fine_best_score = s.fine_best_score := rfl

@[simp] theorem storeSession_recommended_coarse_kp (cfg : ai_tuning_config_t)
    (t : ai_drop_telemetry_t) (s : ai_tuning_session_t) :
    (storeSession cfg t s).recommended_coarse_kp = s.recommended_coarse_kp := rfl

/-- Branch equation: inactive sessions reject the drop. -/
theorem record_drop_inactive_eq (cfg : ai_tuning_config_t) (t : ai_drop_telemetry_t)
    (s : ai_tuning_session_t) (h1 : ¬ ai_tuning_is_active s = true) :
    ai_tuning_record_drop cfg t s = (false, s) := by
  simp [ai_tuning_record_drop, h1]

/-- Branch equation: the drop limit rejects the drop. -/
theorem record_drop_limit_eq (cfg : ai_tuning_config_t) (t : ai_drop_telemetry_t)
    (s : ai_tuning_session_t) (h2 : s.drops_completed ≥ s.max_drops_allowed) :
    ai_tuning_record_drop cfg t s = (false, s) := by
  by_cases h1 : ai_tuning_is_active s
  · simp [ai_tuning_record_drop, h1, h2]
  · simp [ai_tuning_record_drop, h1]

/-- Branch equation: an accepted phase-1 drop. -/
theorem record_drop_p1_eq (cfg : ai_tuning_config_t) (t : ai_drop_telemetry_t)
    (s : ai_tuning_session_t) (h1 : ai_tuning_is_active s = true)
    (h2 : ¬ s.drops_completed ≥ s.max_drops_allowed)
    (h3 : s.state = .AI_TUNING_PHASE_1_COARSE) :
    ai_tuning_record_drop cfg t s = (true, record_drop_phase1 cfg
      (phase1_update_best (calculate_drop_score cfg t) (storedDrop cfg t)
        (storeSession cfg t s))) := by
  simp [ai_tuning_record_drop, h1, h2, h3]

/-- Branch equation: an accepted phase-2 drop. -/
theorem record_drop_p2_eq (cfg : ai_tuning_config_t) (t : ai_drop_telemetry_t)
    (s : ai_tuning_session_t) (h1 : ai_tuning_is_active s = true)
    (h2 : ¬ s.drops_completed ≥ s.max_drops_allowed)
    (h3 : ¬ s.state = .AI_TUNING_PHASE_1_COARSE) :
    ai_tuning_record_drop cfg t s = (true, record_drop_phase2 cfg
      (phase2_update_best (calculate_drop_score cfg t) (storedDrop cfg t)
        (storeSession cfg t s))) := by
  simp [ai_tuning_record_drop, h1, h2, h3]

theorem record_drop_coarse_mono (t : ai_drop_telemetry_t) (s : ai_tuning_session_t) :
    s.coarse_best_score ≤ (ai_tuning_record_drop defaultConfig t s).2.coarse_best_score := by
  by_cases h1 : ai_tuning_is_active s
  · by_cases h2 : s.drops_completed ≥ s.max_drops_allowed
    · rw [record_drop_limit_eq defaultConfig t s h2]
    · by_cases h3 : s.state = ai_tuning_state_t.AI_TUNING_PHASE_1_COARSE
      · rw [record_drop_p1_eq defaultConfig t s h1 h2 h3]
        show s.coarse_best_score ≤ (record_drop_phase1 defaultConfig _).coarse_best_score
        rw [rdp1_coarse_best_score]
        exact le_trans (le_of_eq (storeSession_coarse_best_score defaultConfig t s).symm)
          (p1ub_coarse_mono _ _ _ (drop_score_nonneg t))
      · rw [record_drop_p2_eq defaultConfig t s h1 h2 h3]
        show s.coarse_best_score ≤ (record_drop_phase2 defaultConfig _).coarse_best_score
        rw [rdp2_coarse_best_score, p2ub_coarse_best_score,
          storeSession_coarse_best_score]
  · rw [record_drop_inactive_eq defaultConfig t s h1]

theorem record_drop_fine_mono (t : ai_drop_telemetry_t) (s : ai_tuning_session_t) :
    s.fine_best_score ≤ (ai_tuning_record_drop defaultConfig t s).2.fine_best_score := by
  by_cases h1 : ai_tuning_is_active s
  · by_cases h2 : s.drops_completed ≥ s.max_drops_allowed
    · rw [record_drop_limit_eq defaultConfig t s h2]
    · by_cases h3 : s.state = ai_tuning_state_t.AI_TUNING_PHASE_1_COARSE
      · rw [record_drop_p1_eq defaultConfig t s h1 h2 h3]
        show s.fine_best_score ≤ (record_drop_phase1 defaultConfig _).fine_best_score
        rw [rdp1_fine_best_score, p1ub_fine_best_score, storeSession_fine_best_score]
      · rw [record_drop_p2_eq defaultConfig t s h1 h2 h3]
        show s.fine_best_score ≤ (record_drop_phase2 defaultConfig _).fine_best_score
        rw [rdp2_fine_best_score]
        exact le_trans (le_of_eq (storeSession_fine_best_score defaultConfig t s).symm)
          (p2ub_fine_mono _ _ _ (drop_score_nonneg t))
  · rw [record_drop_inactive_eq defaultConfig t s h1]

theorem record_drop_dc_le (cfg : ai_tuning_config_t) (t : ai_drop_telemetry_t)
    (s : ai_tuning_session_t) (h : s.drops_completed ≤ s.max_drops_allowed) :
    (ai_tuning_record_drop cfg t s).2.drops_completed ≤
      (ai_tuning_record_drop cfg t s).2.max_drops_allowed := by
  by_cases h1 : ai_tuning_is_active s
  · by_cases h2 : s.drops_completed ≥ s.max_drops_allowed
    · rw [record_drop_limit_eq cfg t s h2]
      exact h
    · by_cases h3 : s.state = ai_tuning_state_t.AI_TUNING_PHASE_1_COARSE
      · rw [record_drop_p1_eq cfg t s h1 h2 h3]
        show (record_drop_phase1 cfg _).drops_completed ≤
          (record_drop_phase1 cfg _).max_drops_allowed
        rw [rdp1_drops_completed, rdp1_max_drops_allowed, p1ub_drops_completed,
          p1ub_max_drops_allowed, storeSession_drops_completed,
          storeSession_max_drops_allowed]
        omega
      · rw [record_drop_p2_eq cfg t s h1 h2 h3]
        show (record_drop_phase2 cfg _).drops_completed ≤
          (record_drop_phase2 cfg _).max_drops_allowed
        rw [rdp2_drops_completed, rdp2_max_drops_allowed, p2ub_drops_completed,
          p2ub_max_drops_allowed, storeSession_drops_completed,
          storeSession_max_drops_allowed]
        omega
  · rw [record_drop_inactive_eq cfg t s h1]
    exact h

theorem run_drops_dc_le (cfg : ai_tuning_config_t) (ts : List ai_drop_telemetry_t)
    (s : ai_tuning_session_t) (h : s.drops_completed ≤ s.max_drops_allowed) :
    (run_drops cfg s ts).drops_completed ≤ (run_drops cfg s ts).max_drops_allowed := by
  induction ts generalizing s with
  | nil => exact h
  | cons t ts ih =>
      show (run_drops cfg ((ai_tuning_record_drop cfg t s).2) ts).drops_completed ≤ _
      exact ih _ (record_drop_dc_le cfg t s h)

theorem run_drops_coarse_mono (ts : List ai_drop_telemetry_t) (s : ai_tuning_session_t) :
    s.coarse_best_score ≤ (run_drops defaultConfig s ts).coarse_best_score := by
  induction ts generalizing s with
  | nil => exact le_refl _
  | cons t ts ih =>
      exact le_trans (record_drop_coarse_mono t s) (ih _)

theorem run_drops_fine_mono (ts : List ai_drop_telemetry_t) (s : ai_tuning_session_t) :
    s.fine_best_score ≤ (run_drops defaultConfig s ts).fine_best_score := by
  induction ts generalizing s with
  | nil => exact le_refl _
  | cons t ts ih =>
      exact le_trans (record_drop_fine_mono t s) (ih _)

/-- Claim C8 (session invariants).  For every profile and every telemetry
stream, the number of recorded drops never exceeds `max_drops_allowed`
(`ai_tuning_record_drop` refuses once the limit is reached), and both the
phase-1 best score (`coarse_best_score`) and the phase-2 best score
(`fine_best_score`) are monotonically non-decreasing along the stream. -/
theorem tuning_drop_limit_and_best_monotone (p : profile_t)
    (ts l1 l2 : List ai_drop_telemetry_t) :
    (run_drops defaultConfig (ai_tuning_start defaultConfig p) ts).drops_completed ≤
      (run_drops defaultConfig (ai_tuning_start defaultConfig p) ts).max_drops_allowed ∧
    (run_drops defaultConfig (ai_tuning_start defaultConfig p) l1).coarse_best_score ≤
      (run_drops defaultConfig (ai_tuning_start defaultConfig p) (l1 ++ l2)).coarse_best_score ∧
    (run_drops defaultConfig (ai_tuning_start defaultConfig p) l1).fine_best_score ≤
      (run_drops defaultConfig (ai_tuning_start defaultConfig p) (l1 ++ l2)).fine_best_score := by
  have hstart : (ai_tuning_start defaultConfig p).drops_completed ≤
      (ai_tuning_start defaultConfig p).max_drops_allowed := by
    simp [ai_tuning_start]
  have happ : ∀ l1 l2 : List ai_drop_telemetry_t, ∀ s,
      run_drops defaultConfig s (l1 ++ l2) =
        run_drops defaultConfig (run_drops defaultConfig s l1) l2 := by
    intro l1 l2 s
    simp [run_drops, List.foldl_append]
  refine ⟨run_drops_dc_le defaultConfig ts _ hstart, ?_, ?_⟩
  · rw [happ]
    exact run_drops_coarse_mono l2 _
  · rw [happ]
    exact run_drops_fine_mono l2 _

/-! ### Progress percentage -/

/-- A profile with all gains 1 and tuning enabled. -/
def oneProfile : profile_t :=
  { coarse_kp := 1, coarse_ki := 0, coarse_kd := 1, fine_kp := 1, fine_ki := 0,
    fine_kd := 1, coarse_min_flow_speed_rps := 0, coarse_max_flow_speed_rps := 1,
    fine_min_flow_speed_rps := 0, fine_max_flow_speed_rps := 1,
    ai_tuning_enabled := true }

/-- Claim C10 (progress percentage).  `ai_tuning_get_progress_percent`
guards the division (a zero target reports 0) and applies no upper clamp:
a fresh session has `total_drops_target = 4` and `max_drops_allowed = 50`,
every drop recorded while the session is active and under the limit
increments `drops_completed`, and any session with target 4 and five
recorded drops reports 125 %. -/
theorem progress_percent_guarded_and_unclamped :
    (∀ s, s.total_drops_target = 0 → ai_tuning_get_progress_percent s = 0) ∧
    (ai_tuning_start defaultConfig oneProfile).total_drops_target = 4 ∧
    (ai_tuning_start defaultConfig oneProfile).max_drops_allowed = 50 ∧
    (∀ cfg t s, ai_tuning_is_active s = true →
      s.drops_completed < s.max_drops_allowed →
      (ai_tuning_record_drop cfg t s).1 = true ∧
      (ai_tuning_record_drop cfg t s).2.drops_completed = s.drops_completed + 1) ∧
    (∀ s, s.total_drops_target = 4 → s.drops_completed = 5 →
      ai_tuning_get_progress_percent s = 125) ∧
    100 < 125 := by
  refine ⟨?_, rfl, rfl, ?_, ?_, by norm_num⟩
  · intro s h
    simp [ai_tuning_get_progress_percent, h]
  · intro cfg t s h1 h2
    have h2' : ¬ s.drops_completed ≥ s.max_drops_allowed := Nat.not_le.mpr h2
    by_cases h3 : s.state = ai_tuning_state_t.AI_TUNING_PHASE_1_COARSE
    · rw [record_drop_p1_eq cfg t s h1 h2' h3]
      refine ⟨rfl, ?_⟩
      show (record_drop_phase1 cfg _).drops_completed = _
      rw [rdp1_drops_completed, p1ub_drops_completed, storeSession_drops_completed]
    · rw [record_drop_p2_eq cfg t s h1 h2' h3]
      refine ⟨rfl, ?_⟩
      show (record_drop_phase2 cfg _).drops_completed = _
      rw [rdp2_drops_completed, p2ub_drops_completed, storeSession_drops_completed]
  · intro s h4 h5
    simp [ai_tuning_get_progress_percent, h4, h5]

/-- Witness for claim C10: the guard at the all-zero session, the
increment at a freshly started session, and the 125 % report at a session
with five drops against target four. -/
theorem progress_percent_guarded_witness :
    ai_tuning_get_progress_percent zeroSession = 0 ∧
    (ai_tuning_record_drop defaultConfig perfectDrop
        (ai_tuning_start defaultConfig oneProfile)).1 = true ∧
    (ai_tuning_record_drop defaultConfig perfectDrop
        (ai_tuning_start defaultConfig oneProfile)).2.drops_completed =
      (ai_tuning_start defaultConfig oneProfile).drops_completed + 1 ∧
    ai_tuning_get_progress_percent
      { zeroSession with total_drops_target := 4, drops_completed := 5 } = 125 :=
  ⟨progress_percent_guarded_and_unclamped.1 zeroSession rfl,
   (progress_percent_guarded_and_unclamped.2.2.2.1 defaultConfig perfectDrop
      (ai_tuning_start defaultConfig oneProfile) rfl (by decide)).1,
   (progress_percent_guarded_and_unclamped.2.2.2.1 defaultConfig perfectDrop
      (ai_tuning_start defaultConfig oneProfile) rfl (by decide)).2,
   progress_percent_guarded_and_unclamped.2.2.2.2.1
     { zeroSession with total_drops_target := 4, drops_completed := 5 } rfl rfl⟩


/-! ### Claim C6: the convergence rule -/

@[simp] theorem storedDrop_overthrow_percent (cfg : ai_tuning_config_t)
    (t : ai_drop_telemetry_t) :
    (storedDrop cfg t).overthrow_percent = t.overthrow_percent := rfl

@[simp] theorem storedDrop_overall_score (cfg : ai_tuning_config_t)
    (t : ai_drop_telemetry_t) :
    (storedDrop cfg t).overall_score = calculate_drop_score cfg t := rfl

/-- When the two drops the convergence check inspects are both excellent
(overthrow magnitude below 3 and score above 80), `check_phase_convergence`
reports convergence. -/
theorem check_conv_excellent (cfg : ai_tuning_config_t) (i n : Nat)
    (s : ai_tuning_session_t) (hn : 2 ≤ n)
    (h1 : |(s.drops.getD (i + n - 2) default).overthrow_percent| < 3)
    (h2 : |(s.drops.getD (i + n - 1) default).overthrow_percent| < 3)
    (h3 : (s.drops.getD (i + n - 2) default).overall_score > 80)
    (h4 : (s.drops.getD (i + n - 1) default).overall_score > 80) :
    (check_phase_convergence cfg i n s).1 = true := by
  simp only [check_phase_convergence]
  rw [if_neg (by omega)]
  rw [if_pos ⟨h1, h2, h3, h4⟩]

/-- When the phase-1 convergence check fires, the phase-1 tail transitions to
phase 2 and freezes the coarse recommendations from the best coarse gains. -/
theorem rdp1_conv_projections (cfg : ai_tuning_config_t) (s : ai_tuning_session_t)
    (hge : s.drops_completed ≥ s.min_drops_per_phase)
    (hconv : (check_phase_convergence cfg 0 s.drops_completed
        (calculate_next_params_phase1 cfg s)).1 = true) :
    (record_drop_phase1 cfg s).state = .AI_TUNING_PHASE_2_FINE ∧
    (record_drop_phase1 cfg s).recommended_coarse_kp =
      (record_drop_phase1 cfg s).coarse_kp_best ∧
    (record_drop_phase1 cfg s).recommended_coarse_kd =
      (record_drop_phase1 cfg s).coarse_kd_best := by
  simp only [record_drop_phase1, np1_drops_completed, np1_min_drops_per_phase]
  rw [if_pos hge, hconv]
  simp

/-- When the phase-2 convergence check fires, the phase-2 tail finalizes the
session, entering the complete state. -/
theorem rdp2_conv_state (cfg : ai_tuning_config_t) (s : ai_tuning_session_t)
    (hge : s.drops_completed - rd_phase2_start (calculate_next_params_phase2 cfg s) ≥
      s.min_drops_per_phase)
    (hconv : (check_phase_convergence cfg
        (rd_phase2_start (calculate_next_params_phase2 cfg s))
        (s.drops_completed - rd_phase2_start (calculate_next_params_phase2 cfg s))
        (calculate_next_params_phase2 cfg s)).1 = true) :
    (record_drop_phase2 cfg s).state = .AI_TUNING_COMPLETE := by
  simp only [record_drop_phase2, np2_drops_completed, np2_min_drops_per_phase]
  rw [if_pos hge, hconv]
  simp

/-- Drop 0 of the C6 scenario: 5 % overthrow, 15 s, on-target weight,
coarse gains 1/1, fine gains 1.3/1. -/
def c6t0 : ai_drop_telemetry_t := mkDrop 5 15000 10 10 1 1 (13/10) 1

/-- Drop 1 of the C6 scenario (identical to drop 0). -/
def c6t1 : ai_drop_telemetry_t := mkDrop 5 15000 10 10 1 1 (13/10) 1

/-- Drop 2 of the C6 scenario: 7 % overthrow (over the 6.67 % limit). -/
def c6t2 : ai_drop_telemetry_t := mkDrop 7 15000 10 10 1 1 (13/10) 1

/-- Drop 3 of the C6 scenario: 1 % overthrow — an excellent drop
(score 175100/2001 = 87.5). -/
def c6t3 : ai_drop_telemetry_t := mkDrop 1 15000 10 10 1 1 (13/10) 1

/-- Drop 4 of the C6 scenario: telemetry identical to drop 3 except that
`fine_kp_used = 2` differs from the recommended coarse Kp (1.3), so the
scan `rd_phase2_start` locates the "phase-2 start" at this drop. -/
def c6t4 : ai_drop_telemetry_t := mkDrop 1 15000 10 10 1 1 2 1

/-- Freshly started session of the C6 scenario (all profile gains 1). -/
def c6s0 : ai_tuning_session_t := ai_tuning_start defaultConfig oneProfile

/-- Session after drop 0 of the C6 scenario. -/
def c6s1 : ai_tuning_session_t :=
  { state := .AI_TUNING_PHASE_1_COARSE, drops_completed := 1,
    total_drops_target := 4, max_drops_allowed := 50,
    min_drops_per_phase := 2,
    drops := [{ c6t0 with overall_score := 75100/2001 }],
    coarse_kp_best := 13/10, coarse_kd_best := 1,
    coarse_best_score := 75100/2001,
    coarse_kp_min := 0, coarse_kp_max := 100,
    coarse_kd_min := 0, coarse_kd_max := 100,
    fine_kp_best := 1, fine_kd_best := 1,
    fine_best_score := -1,
    fine_kp_min := 0, fine_kp_max := 100,
    fine_kd_min := 0, fine_kd_max := 100,
    recommended_coarse_kp := 0,
    recommended_coarse_kd := 0,
    recommended_fine_kp := 0,
    recommended_fine_kd := 0,
    avg_overthrow := 0, avg_total_time := 0,
    consistency_score := 0,
    exploration_factor := 4/5,
    consecutive_good_drops := 0 }

/-- Session after drop 1 of the C6 scenario. -/
def c6s2 : ai_tuning_session_t :=
  { state := .AI_TUNING_PHASE_2_FINE, drops_completed := 2,
    total_drops_target := 4, max_drops_allowed := 50,
    min_drops_per_phase := 2,
    drops := [{ c6t0 with overall_score := 75100/2001 }, { c6t1 with overall_score := 75100/2001 }],
    coarse_kp_best := 13/10, coarse_kd_best := 57/50,
    coarse_best_score := 75100/2001,
    coarse_kp_min := 0, coarse_kp_max := 100,
    coarse_kd_min := 0, coarse_kd_max := 100,
    fine_kp_best := 1, fine_kd_best := 1,
    fine_best_score := -1,
    fine_kp_min := 0, fine_kp_max := 100,
    fine_kd_min := 0, fine_kd_max := 100,
    recommended_coarse_kp := 13/10,
    recommended_coarse_kd := 57/50,
    recommended_fine_kp := 0,
    recommended_fine_kd := 0,
    avg_overthrow := 0, avg_total_time := 0,
    consistency_score := 0,
    exploration_factor := 3/5,
    consecutive_good_drops := 0 }

/-- Session after drop 2 of the C6 scenario. -/
def c6s3 : ai_tuning_session_t :=
  { state := .AI_TUNING_PHASE_2_FINE, drops_completed := 3,
    total_drops_target := 4, max_drops_allowed := 50,
    min_drops_per_phase := 2,
    drops := [{ c6t0 with overall_score := 75100/2001 }, { c6t1 with overall_score := 75100/2001 }, { c6t2 with overall_score := 50/3 }],
    coarse_kp_best := 13/10, coarse_kd_best := 57/50,
    coarse_best_score := 75100/2001,
    coarse_kp_min := 0, coarse_kp_max := 100,
    coarse_kd_min := 0, coarse_kd_max := 100,
    fine_kp_best := 1509/1250, fine_kd_best := 677/625,
    fine_best_score := 50/3,
    fine_kp_min := 0, fine_kp_max := 100,
    fine_kd_min := 0, fine_kd_max := 100,
    recommended_coarse_kp := 13/10,
    recommended_coarse_kd := 57/50,
    recommended_fine_kp := 0,
    recommended_fine_kd := 0,
    avg_overthrow := 0, avg_total_time := 0,
    consistency_score := 0,
    exploration_factor := 7/10,
    consecutive_good_drops := 0 }

/-- Session after drop 3 of the C6 scenario. -/
def c6s4 : ai_tuning_session_t :=
  { state := .AI_TUNING_PHASE_2_FINE, drops_completed := 4,
    total_drops_target := 4, max_drops_allowed := 50,
    min_drops_per_phase := 2,
    drops := [{ c6t0 with overall_score := 75100/2001 }, { c6t1 with overall_score := 75100/2001 }, { c6t2 with overall_score := 50/3 }, { c6t3 with overall_score := 175100/2001 }],
    coarse_kp_best := 13/10, coarse_kd_best := 57/50,
    coarse_best_score := 75100/2001,
    coarse_kp_min := 0, coarse_kp_max := 100,
    coarse_kd_min := 0, coarse_kd_max := 100,
    fine_kp_best := 13/10, fine_kd_best := 1,
    fine_best_score := 175100/2001,
    fine_kp_min := 0, fine_kp_max := 100,
    fine_kd_min := 0, fine_kd_max := 100,
    recommended_coarse_kp := 13/10,
    recommended_coarse_kd := 57/50,
    recommended_fine_kp := 0,
    recommended_fine_kd := 0,
    avg_overthrow := 0, avg_total_time := 0,
    consistency_score := 0,
    exploration_factor := 3/5,
    consecutive_good_drops := 0 }

/-- Session after drop 4 of the C6 scenario. -/
def c6s5 : ai_tuning_session_t :=
  { state := .AI_TUNING_PHASE_2_FINE, drops_completed := 5,
    total_drops_target := 4, max_drops_allowed := 50,
    min_drops_per_phase := 2,
    drops := [{ c6t0 with overall_score := 75100/2001 }, { c6t1 with overall_score := 75100/2001 }, { c6t2 with overall_score := 50/3 }, { c6t3 with overall_score := 175100/2001 }, { c6t4 with overall_score := 175100/2001 }],
    coarse_kp_best := 13/10, coarse_kd_best := 57/50,
    coarse_best_score := 75100/2001,
    coarse_kp_min := 0, coarse_kp_max := 100,
    coarse_kd_min := 0, coarse_kd_max := 100,
    fine_kp_best := 13/10, fine_kd_best := 1,
    fine_best_score := 175100/2001,
    fine_kp_min := 0, fine_kp_max := 100,
    fine_kd_min := 0, fine_kd_max := 100,
    recommended_coarse_kp := 13/10,
    recommended_coarse_kd := 57/50,
    recommended_fine_kp := 0,
    recommended_fine_kd := 0,
    avg_overthrow := 0, avg_total_time := 0,
    consistency_score := 0,
    exploration_factor := 3/5,
    consecutive_good_drops := 0 }


theorem c6_step1 : ai_tuning_record_drop defaultConfig c6t0 c6s0 = (true, c6s1) := by
  rw [record_drop_p1_eq defaultConfig c6t0 c6s0 rfl (by decide) rfl]
  norm_num [record_drop_phase1, phase1_update_best, calculate_next_params_phase1,
    check_phase_convergence, storedDrop, storeSession, calculate_drop_score,
    overthrow_score, speed_score, accuracy_score, defaultConfig, ai_tuning_start,
    zeroSession, oneProfile, mkDrop, c6s0, c6t0, c6s1]

theorem c6_step2 : ai_tuning_record_drop defaultConfig c6t1 c6s1 = (true, c6s2) := by
  rw [record_drop_p1_eq defaultConfig c6t1 c6s1 rfl (by decide) rfl]
  norm_num [record_drop_phase1, phase1_update_best, calculate_next_params_phase1,
    check_phase_convergence, storedDrop, storeSession, calculate_drop_score,
    overthrow_score, speed_score, accuracy_score, defaultConfig,
    mkDrop, c6s1, c6t0, c6t1, c6s2]

theorem c6_step3 : ai_tuning_record_drop defaultConfig c6t2 c6s2 = (true, c6s3) := by
  rw [record_drop_p2_eq defaultConfig c6t2 c6s2 rfl (by decide) (by decide)]
  norm_num [record_drop_phase2, phase2_update_best, calculate_next_params_phase2,
    np2_phase2_start, rd_phase2_start, check_phase_convergence, finalize_recommendations,
    storedDrop, storeSession, calculate_drop_score,
    overthrow_score, speed_score, accuracy_score, defaultConfig,
    mkDrop, c6s2, c6t0, c6t1, c6t2, c6s3, List.findIdx?]

theorem c6_step4 : ai_tuning_record_drop defaultConfig c6t3 c6s3 = (true, c6s4) := by
  rw [record_drop_p2_eq defaultConfig c6t3 c6s3 rfl (by decide) (by decide)]
  norm_num [record_drop_phase2, phase2_update_best, calculate_next_params_phase2,
    np2_phase2_start, rd_phase2_start, check_phase_convergence, finalize_recommendations,
    storedDrop, storeSession, calculate_drop_score,
    overthrow_score, speed_score, accuracy_score, defaultConfig,
    mkDrop, c6s3, c6t0, c6t1, c6t2, c6t3, c6s4, List.findIdx?]

theorem c6_step5 : ai_tuning_record_drop defaultConfig c6t4 c6s4 = (true, c6s5) := by
  rw [record_drop_p2_eq defaultConfig c6t4 c6s4 rfl (by decide) (by decide)]
  norm_num [record_drop_phase2, phase2_update_best, calculate_next_params_phase2,
    np2_phase2_start, rd_phase2_start, check_phase_convergence, finalize_recommendations,
    storedDrop, storeSession, calculate_drop_score,
    overthrow_score, speed_score, accuracy_score, defaultConfig,
    mkDrop, c6s4, c6t0, c6t1, c6t2, c6t3, c6t4, c6s5, List.findIdx?]

/-- Claim C6, counterexample.  In the five-drop run `c6s0 → … → c6s5` from a
freshly started session, drops 3 and 4 are recorded consecutively while the
session is in phase 2 (`c6s3.state` and `c6s4.state` are both
`AI_TUNING_PHASE_2_FINE`), both stored records are excellent (overthrow
magnitude 1 < 3 and score 175100/2001 = 87.5 > 80), and the `record_drop`
call that records the second of them is accepted — yet the session stays in
phase 2 instead of transitioning to complete: the phase-2 start heuristic
(`rd_phase2_start`, scanning for the first drop whose `fine_kp_used` differs
from `recommended_coarse_kp`) locates the phase start at drop 4, leaving a
phase drop count of 1, below the minimum 2, so the convergence check never
runs. -/
theorem tuning_convergence_counterexample :
    (ai_tuning_record_drop defaultConfig c6t0 c6s0 = (true, c6s1) ∧
      ai_tuning_record_drop defaultConfig c6t1 c6s1 = (true, c6s2) ∧
      ai_tuning_record_drop defaultConfig c6t2 c6s2 = (true, c6s3) ∧
      ai_tuning_record_drop defaultConfig c6t3 c6s3 = (true, c6s4) ∧
      ai_tuning_record_drop defaultConfig c6t4 c6s4 = (true, c6s5)) ∧
    (c6s3.state = .AI_TUNING_PHASE_2_FINE ∧ c6s4.state = .AI_TUNING_PHASE_2_FINE) ∧
    (|(c6s5.drops.getD 3 default).overthrow_percent| < 3 ∧
      (c6s5.drops.getD 3 default).overall_score > 80) ∧
    (|(c6s5.drops.getD 4 default).overthrow_percent| < 3 ∧
      (c6s5.drops.getD 4 default).overall_score > 80) ∧
    c6s5.state ≠ .AI_TUNING_COMPLETE := by
  refine ⟨⟨c6_step1, c6_step2, c6_step3, c6_step4, c6_step5⟩, ⟨rfl, rfl⟩, ?_, ?_,
    by decide⟩
  · constructor <;> norm_num [c6s5, c6t3, mkDrop]
  · constructor <;> norm_num [c6s5, c6t4, mkDrop]

/-- Claim C6, amended.  The convergence rule holds as stated for phase 1,
and for phase 2 only under the extra hypothesis that the phase-2 start
heuristic (the first stored drop whose `fine_kp_used` differs from
`recommended_coarse_kp`, defaulting to 0) points at least two drops back:
if the session is active below its drop limit with `min_drops_per_phase = 2`
and at least one recorded drop, the last stored drop is excellent
(overthrow magnitude < 3, score > 80) and the incoming telemetry is
excellent too, then `record_drop` accepts the drop and transitions —
phase 1 to phase 2 with the coarse recommendations frozen from the current
best coarse gains, phase 2 (when the heuristic index is at most
`drops_completed - 1`) to complete. -/
theorem tuning_convergence_amended (cfg : ai_tuning_config_t)
    (t : ai_drop_telemetry_t) (s : ai_tuning_session_t)
    (hact : ai_tuning_is_active s = true)
    (hlim : s.drops_completed < s.max_drops_allowed)
    (hlen : s.drops.length = s.drops_completed)
    (hmin : s.min_drops_per_phase = 2)
    (hdc : 1 ≤ s.drops_completed)
    (hprev1 : |(s.drops.getD (s.drops_completed - 1) default).overthrow_percent| < 3)
    (hprev2 : (s.drops.getD (s.drops_completed - 1) default).overall_score > 80)
    (hcur1 : |t.overthrow_percent| < 3)
    (hcur2 : calculate_drop_score cfg t > 80)
    (hp2 : s.state = .AI_TUNING_PHASE_2_FINE →
      ((s.drops ++ [storedDrop cfg t]).findIdx?
          (fun d => d.fine_kp_used != s.recommended_coarse_kp)).getD 0 ≤
        s.drops_completed - 1) :
    (ai_tuning_record_drop cfg t s).1 = true ∧
    (ai_tuning_record_drop cfg t s).2.state =
      (if s.state = .AI_TUNING_PHASE_1_COARSE then .AI_TUNING_PHASE_2_FINE
       else .AI_TUNING_COMPLETE) ∧
    (s.state = .AI_TUNING_PHASE_1_COARSE →
      (ai_tuning_record_drop cfg t s).2.recommended_coarse_kp =
        (ai_tuning_record_drop cfg t s).2.coarse_kp_best ∧
      (ai_tuning_record_drop cfg t s).2.recommended_coarse_kd =
        (ai_tuning_record_drop cfg t s).2.coarse_kd_best) := by
  have hnot : ¬ s.drops_completed ≥ s.max_drops_allowed := not_le.mpr hlim
  by_cases hst : s.state = .AI_TUNING_PHASE_1_COARSE
  · rw [record_drop_p1_eq cfg t s hact hnot hst, if_pos hst]
    set s1 := phase1_update_best (calculate_drop_score cfg t) (storedDrop cfg t)
        (storeSession cfg t s) with hs1
    have hdc1 : s1.drops_completed = s.drops_completed + 1 := by simp [hs1]
    have hmin1 : s1.min_drops_per_phase = s.min_drops_per_phase := by simp [hs1]
    have hdr1 : s1.drops = s.drops ++ [storedDrop cfg t] := by simp [hs1]
    have hge : s1.drops_completed ≥ s1.min_drops_per_phase := by
      rw [hdc1, hmin1, hmin]; omega
    have hconv : (check_phase_convergence cfg 0 s1.drops_completed
        (calculate_next_params_phase1 cfg s1)).1 = true := by
      apply check_conv_excellent
      · rw [hdc1]; omega
      · rw [np1_drops, hdr1, hdc1]
        have e : 0 + (s.drops_completed + 1) - 2 = s.drops_completed - 1 := by omega
        rw [e, List.getD_append _ _ _ _ (by rw [hlen]; omega)]
        exact hprev1
      · rw [np1_drops, hdr1, hdc1]
        have e : 0 + (s.drops_completed + 1) - 1 = s.drops_completed := by omega
        rw [e, List.getD_append_right _ _ _ _ (by rw [hlen])]
        simp [hlen]
        exact hcur1
      · rw [np1_drops, hdr1, hdc1]
        have e : 0 + (s.drops_completed + 1) - 2 = s.drops_completed - 1 := by omega
        rw [e, List.getD_append _ _ _ _ (by rw [hlen]; omega)]
        exact hprev2
      · rw [np1_drops, hdr1, hdc1]
        have e : 0 + (s.drops_completed + 1) - 1 = s.drops_completed := by omega
        rw [e, List.getD_append_right _ _ _ _ (by rw [hlen])]
        simp [hlen]
        exact hcur2
    obtain ⟨ha, hb, hc⟩ := rdp1_conv_projections cfg s1 hge hconv
    exact ⟨rfl, ha, fun _ => ⟨hb, hc⟩⟩
  · rw [record_drop_p2_eq cfg t s hact hnot hst, if_neg hst]
    have hstP2 : s.state = .AI_TUNING_PHASE_2_FINE := by
      have h := hact
      simp only [ai_tuning_is_active, Bool.or_eq_true, beq_iff_eq] at h
      tauto
    have hk := hp2 hstP2
    set k0 := ((s.drops ++ [storedDrop cfg t]).findIdx?
        (fun d => d.fine_kp_used != s.recommended_coarse_kp)).getD 0 with hk0
    set s1 := phase2_update_best (calculate_drop_score cfg t) (storedDrop cfg t)
        (storeSession cfg t s) with hs1
    have hdc1 : s1.drops_completed = s.drops_completed + 1 := by simp [hs1]
    have hmin1 : s1.min_drops_per_phase = s.min_drops_per_phase := by simp [hs1]
    have hdr1 : s1.drops = s.drops ++ [storedDrop cfg t] := by simp [hs1]
    have hrec1 : s1.recommended_coarse_kp = s.recommended_coarse_kp := by simp [hs1]
    have hrd : rd_phase2_start (calculate_next_params_phase2 cfg s1) = k0 := by
      rw [rd_phase2_start, np2_drops, np2_recommended_coarse_kp, hdr1, hrec1]
    have hge : s1.drops_completed - rd_phase2_start (calculate_next_params_phase2 cfg s1) ≥
        s1.min_drops_per_phase := by
      rw [hrd, hdc1, hmin1, hmin]; omega
    have hconv : (check_phase_convergence cfg
        (rd_phase2_start (calculate_next_params_phase2 cfg s1))
        (s1.drops_completed - rd_phase2_start (calculate_next_params_phase2 cfg s1))
        (calculate_next_params_phase2 cfg s1)).1 = true := by
      apply check_conv_excellent
      · rw [hrd, hdc1]; omega
      · rw [np2_drops, hdr1, hrd, hdc1]
        have e : k0 + (s.drops_completed + 1 - k0) - 2 = s.drops_completed - 1 := by omega
        rw [e, List.getD_append _ _ _ _ (by rw [hlen]; omega)]
        exact hprev1
      · rw [np2_drops, hdr1, hrd, hdc1]
        have e : k0 + (s.drops_completed + 1 - k0) - 1 = s.drops_completed := by omega
        rw [e, List.getD_append_right _ _ _ _ (by rw [hlen])]
        simp [hlen]
        exact hcur1
      · rw [np2_drops, hdr1, hrd, hdc1]
        have e : k0 + (s.drops_completed + 1 - k0) - 2 = s.drops_completed - 1 := by omega
        rw [e, List.getD_append _ _ _ _ (by rw [hlen]; omega)]
        exact hprev2
      · rw [np2_drops, hdr1, hrd, hdc1]
        have e : k0 + (s.drops_completed + 1 - k0) - 1 = s.drops_completed := by omega
        rw [e, List.getD_append_right _ _ _ _ (by rw [hlen])]
        simp [hlen]
        exact hcur2
    have ha := rdp2_conv_state cfg s1 hge hconv
    exact ⟨rfl, by rw [ha], fun hcontra => absurd hcontra hst⟩

/-- Phase-1 session one drop in whose stored drop is excellent (overthrow
1 %, score 90). -/
def c6wSession : ai_tuning_session_t :=
  { zeroSession with
    state := .AI_TUNING_PHASE_1_COARSE
    drops_completed := 1
    total_drops_target := 4
    max_drops_allowed := 50
    min_drops_per_phase := 2
    drops := [{ c6t3 with overall_score := 90 }] }

/-- Witness for the amended claim C6 theorem, applied in phase 1 to the
session `c6wSession` with the excellent incoming drop `c6t3`
(score 175100/2001 = 87.5 > 80). -/
theorem tuning_convergence_amended_witness :
    (ai_tuning_record_drop defaultConfig c6t3 c6wSession).1 = true ∧
    (ai_tuning_record_drop defaultConfig c6t3 c6wSession).2.state =
      (if c6wSession.state = .AI_TUNING_PHASE_1_COARSE then .AI_TUNING_PHASE_2_FINE
       else .AI_TUNING_COMPLETE) ∧
    (c6wSession.state = .AI_TUNING_PHASE_1_COARSE →
      (ai_tuning_record_drop defaultConfig c6t3 c6wSession).2.recommended_coarse_kp =
        (ai_tuning_record_drop defaultConfig c6t3 c6wSession).2.coarse_kp_best ∧
      (ai_tuning_record_drop defaultConfig c6t3 c6wSession).2.recommended_coarse_kd =
        (ai_tuning_record_drop defaultConfig c6t3 c6wSession).2.coarse_kd_best) :=
  tuning_convergence_amended defaultConfig c6t3 c6wSession
    rfl (by decide) rfl rfl (by decide)
    (by norm_num [c6wSession, zeroSession, c6t3, mkDrop])
    (by norm_num [c6wSession, zeroSession, c6t3, mkDrop])
    (by norm_num [c6t3, mkDrop])
    (by norm_num [calculate_drop_score, overthrow_score, speed_score, accuracy_score,
      defaultConfig, c6t3, mkDrop])
    (fun h => nomatch h)


/-! ### Claim C9: charge-cycle telemetry timing

The PID charge loop of `charge_mode_wait_for_complete` (`charge_mode.cpp`
lines 259–331) is embedded as a fold over the scale samples the loop
consumes, each a pair of the FreeRTOS tick at which it was taken and the
measured weight.  Only the state the timing claim depends on is kept: the
`should_coarse_trickler_move` flag and `coarse_stop_tick` (the PID speed
updates touch neither).  The loop returns the final `coarse_stop_tick` when
a sample satisfies the stop condition, `none` when the sample stream ends
first (the cycle did not complete). -/

/-- The fields of `charge_mode_config` the loop and the telemetry read
(`charge_mode.cpp` lines 284–299, 379). -/
structure ChargeCfg where
  target_charge_weight : ℚ
  fine_stop_threshold : ℚ
  coarse_stop_threshold : ℚ

/-- The charge PID loop (`charge_mode.cpp` lines 267–331), reduced to the
timing state: stop when `error < fine_stop_threshold`, record
`coarse_stop_tick` at the first sample with `error < coarse_stop_threshold`
while the coarse trickler still moves. -/
def charge_pid_loop (cfg : ChargeCfg) :
    List (Nat × ℚ) → Bool → Nat → Option Nat
  | [], _, _ => none
  | (tick, w) :: rest, should_move, stop_tick =>
    let error := cfg.target_charge_weight - w
    if error < cfg.fine_stop_threshold then some stop_tick
    else if error < cfg.coarse_stop_threshold ∧ should_move = true then
      charge_pid_loop cfg rest false tick
    else
      charge_pid_loop cfg rest should_move stop_tick

/-- The telemetry record filled at `charge_mode.cpp` lines 358–385:
`coarse_time_ms` and `fine_time_ms` from the tick triple
(start, coarse stop, now) with `coarse_stop_tick > 0` as the sentinel, and
`total_time_ms` the whole elapsed time.  (The C code leaves the three score
fields uninitialized; they are taken as 0 here — `ai_tuning_record_drop`
overwrites `overall_score` and never reads the other two.) -/
def charge_telemetry (tick_ms start now stop : Nat)
    (final_weight target ckp ckd fkp fkd : ℚ) (dn : Nat) : ai_drop_telemetry_t :=
  { drop_number := dn
    coarse_time_ms := if stop > 0 then (((stop - start) * tick_ms : Nat) : ℚ) else 0
    fine_time_ms :=
      if stop > 0 then (((now - stop) * tick_ms : Nat) : ℚ)
      else (((now - start) * tick_ms : Nat) : ℚ)
    total_time_ms := (((now - start) * tick_ms : Nat) : ℚ)
    final_weight := final_weight
    target_weight := target
    overthrow := final_weight - target
    overthrow_percent := 100 * (final_weight - target) / target
    coarse_kp_used := ckp
    coarse_kd_used := ckd
    fine_kp_used := fkp
    fine_kd_used := fkd
    accuracy_score := 0
    speed_score := 0
    overall_score := 0 }

/-- The loop's final `coarse_stop_tick` is either the initial value or the
tick of one of the consumed samples. -/
theorem charge_pid_loop_stop (cfg : ChargeCfg) :
    ∀ (samples : List (Nat × ℚ)) (sm : Bool) (st0 stop : Nat),
      charge_pid_loop cfg samples sm st0 = some stop →
      stop = st0 ∨ ∃ p ∈ samples, stop = p.1 := by
  intro samples
  induction samples with
  | nil => intro sm st0 stop h; simp [charge_pid_loop] at h
  | cons hd tl ih =>
    intro sm st0 stop h
    rcases hd with ⟨tick, w⟩
    simp only [charge_pid_loop] at h
    split_ifs at h with h1 h2
    · cases h; exact Or.inl rfl
    · rcases ih false tick stop h with h3 | ⟨p, hp, he⟩
      · exact Or.inr ⟨(tick, w), by simp, by simp [h3]⟩
      · exact Or.inr ⟨p, by simp [hp], he⟩
    · rcases ih sm st0 stop h with h3 | ⟨p, hp, he⟩
      · exact Or.inl h3
      · exact Or.inr ⟨p, by simp [hp], he⟩

/-- Claim C9 (charge-cycle telemetry timing).  For a charge cycle that
completes (the loop stops on some sample) with samples taken between the
cycle start tick and the cycle end tick and a nonzero start tick: when the
coarse cutover never fired (`coarse_stop_tick` still 0), the telemetry has
`coarse_time_ms = 0` and `fine_time_ms = total_time_ms`; when it fired,
the stop tick lies between start and end, `coarse_time_ms` is the elapsed
time from cycle start to the coarse stop tick and `fine_time_ms` the
elapsed time from the coarse stop tick to cycle end. -/
theorem charge_telemetry_timing (cfg : ChargeCfg)
    (tick_ms start now dn : Nat) (fw ckp ckd fkp fkd : ℚ)
    (samples : List (Nat × ℚ)) (stop : Nat)
    (hrun : charge_pid_loop cfg samples true 0 = some stop)
    (hticks : ∀ p ∈ samples, start ≤ p.1 ∧ p.1 ≤ now)
    (hstart : 1 ≤ start) :
    (stop = 0 →
      (charge_telemetry tick_ms start now stop fw cfg.target_charge_weight
        ckp ckd fkp fkd dn).coarse_time_ms = 0 ∧
      (charge_telemetry tick_ms start now stop fw cfg.target_charge_weight
        ckp ckd fkp fkd dn).fine_time_ms =
        (charge_telemetry tick_ms start now stop fw cfg.target_charge_weight
          ckp ckd fkp fkd dn).total_time_ms) ∧
    (stop ≠ 0 →
      start ≤ stop ∧ stop ≤ now ∧
      (charge_telemetry tick_ms start now stop fw cfg.target_charge_weight
        ckp ckd fkp fkd dn).coarse_time_ms = (((stop - start) * tick_ms : Nat) : ℚ) ∧
      (charge_telemetry tick_ms start now stop fw cfg.target_charge_weight
        ckp ckd fkp fkd dn).fine_time_ms = (((now - stop) * tick_ms : Nat) : ℚ)) := by
  constructor
  · intro h0
    subst h0
    simp [charge_telemetry]
  · intro hne
    rcases charge_pid_loop_stop cfg samples true 0 stop hrun with h0 | ⟨p, hp, he⟩
    · exact absurd h0 hne
    · obtain ⟨hle1, hle2⟩ := hticks p hp
      rw [he]
      have hpos : p.1 > 0 := by omega
      refine ⟨by omega, by omega, ?_, ?_⟩ <;> simp [charge_telemetry, hpos]

/-- Charge-mode configuration of the C9 witness: target 10, fine stop
threshold 0.02, coarse stop threshold 1. -/
def c9cfg : ChargeCfg :=
  { target_charge_weight := 10, fine_stop_threshold := 1/50,
    coarse_stop_threshold := 1 }

/-- Scale samples of the C9 witness: the second sample fires the coarse
cutover (error 0.5 < 1) at tick 200, the third stops the cycle
(error 0.01 < 0.02). -/
def c9samples : List (Nat × ℚ) := [(100, 5), (200, 19/2), (300, 999/100)]

/-- Witness for claim C9: the timing theorem applied to the concrete cycle
`c9samples` (start tick 50, end tick 310, 1 ms per tick), whose coarse
cutover fires at tick 200, giving `coarse_time_ms = 150` and
`fine_time_ms = 110`. -/
theorem charge_telemetry_timing_witness :
    ((200 : Nat) = 0 →
      (charge_telemetry 1 50 310 200 10 c9cfg.target_charge_weight
        1 1 1 1 1).coarse_time_ms = 0 ∧
      (charge_telemetry 1 50 310 200 10 c9cfg.target_charge_weight
        1 1 1 1 1).fine_time_ms =
        (charge_telemetry 1 50 310 200 10 c9cfg.target_charge_weight
          1 1 1 1 1).total_time_ms) ∧
    ((200 : Nat) ≠ 0 →
      50 ≤ 200 ∧ (200 : Nat) ≤ 310 ∧
      (charge_telemetry 1 50 310 200 10 c9cfg.target_charge_weight
        1 1 1 1 1).coarse_time_ms = (((200 - 50) * 1 : Nat) : ℚ) ∧
      (charge_telemetry 1 50 310 200 10 c9cfg.target_charge_weight
        1 1 1 1 1).fine_time_ms = (((310 - 200) * 1 : Nat) : ℚ)) :=
  charge_telemetry_timing c9cfg 1 50 310 1 10 1 1 1 1 c9samples 200
    (by norm_num [charge_pid_loop, c9cfg, c9samples])
    (by
      intro p hp
      simp only [c9samples, List.mem_cons, List.not_mem_nil, or_false] at hp
      rcases hp with h | h | h <;> subst h <;> exact ⟨by norm_num, by norm_num⟩)
    (by norm_num)

/-! ### Claim C5: HTTP download header parsing

The header-parsing arm of `tcp_recv_callback` (`firmware_download.c` lines
142–179) for one received TCP segment.  Bytes are `Nat` character codes.
The firmware-manager pipeline calls the arm makes are recorded in a trace
(`firmware_manager.c` is not in the source tree; its entry points are taken
to succeed, which only strengthens the record of which calls happen). -/

/-- Download state machine values (`firmware_download.h`). -/
inductive dl_state where
  | DOWNLOAD_IDLE
  | DOWNLOAD_RECEIVING_HEADERS
  | DOWNLOAD_RECEIVING_BODY
  | DOWNLOAD_VALIDATING
  | DOWNLOAD_COMPLETE
  | DOWNLOAD_ERROR
  deriving DecidableEq, Repr

/-- The part of `download_ctx` the header arm reads and writes. -/
structure download_ctx_t where
  headers_complete : Bool
  content_length : Nat
  bytes_downloaded : Nat
  state : dl_state
  deriving DecidableEq, Repr

/-- A call into the firmware-manager pipeline. -/
inductive FmCall where
  | startUpdate (size : Nat)
  | writeChunk (data : List Nat)
  deriving DecidableEq, Repr

/-- Index of the first occurrence of `needle` in `hay` (the `strstr`
result), `none` when absent. -/
def strstr_idx (hay needle : List Nat) : Option Nat :=
  (List.range (hay.length + 1)).find? (fun i => needle.isPrefixOf (hay.drop i))

/-- Byte codes of the header terminator `CRLFCRLF`. -/
def crlfcrlf : List Nat := [13, 10, 13, 10]

/-- Byte codes of the 15 characters of the Content-Length header name with
its colon. -/
def contentLengthBytes : List Nat :=
  [67, 111, 110, 116, 101, 110, 116, 45, 76, 101, 110, 103, 116, 104, 58]

/-- Decimal `strtoul`: skip whitespace, fold the leading digits
(0 when there are none). -/
def strtoul10 (s : List Nat) : Nat :=
  let s := s.dropWhile (fun c => c == 32 || c == 9 || c == 10 || c == 13)
  (s.takeWhile (fun c => decide (48 ≤ c) && decide (c ≤ 57))).foldl
    (fun acc c => acc * 10 + (c - 48)) 0

/-- The header-parsing arm of `tcp_recv_callback` (`firmware_download.c`
lines 142–179) on one segment: when the segment holds the `CRLFCRLF`
terminator, mark headers complete, take `Content-Length` when present
(leaving the zero-initialized value otherwise), call
`firmware_manager_start_update` with the resulting length, enter the
body-receiving state and feed the bytes after the terminator to
`firmware_manager_write_chunk`. -/
def tcp_process_header_segment (ctx : download_ctx_t) (data : List Nat) :
    download_ctx_t × List FmCall :=
  match strstr_idx data crlfcrlf with
  | none => (ctx, [])
  | some header_end =>
    let ctx1 : download_ctx_t := { ctx with headers_complete := true }
    let ctx2 : download_ctx_t :=
      match strstr_idx data contentLengthBytes with
      | some cl => { ctx1 with content_length := strtoul10 (data.drop (cl + 15)) }
      | none => ctx1
    let ctx3 : download_ctx_t := { ctx2 with state := .DOWNLOAD_RECEIVING_BODY }
    let body := data.drop (header_end + 4)
    if body.length > 0 then
      ({ ctx3 with bytes_downloaded := ctx3.bytes_downloaded + body.length },
        [FmCall.startUpdate ctx2.content_length, FmCall.writeChunk body])
    else (ctx3, [FmCall.startUpdate ctx2.content_length])

/-- The zero-initialized download context in the header-receiving state
(`firmware_download_init` memsets the context; `tcp_connected_callback`
sets `DOWNLOAD_RECEIVING_HEADERS`). -/
def dlInitCtx : download_ctx_t :=
  { headers_complete := false, content_length := 0, bytes_downloaded := 0,
    state := .DOWNLOAD_RECEIVING_HEADERS }

/-- The C5 failing input: a complete header block with no Content-Length
header (the text HTTP/1.1 200 OK, one X: y line, the blank line) followed
by two body bytes 170 and 187. -/
def c5data : List Nat :=
  [72, 84, 84, 80, 47, 49, 46, 49, 32, 50, 48, 48, 32, 79, 75, 13, 10,
   88, 58, 32, 121, 13, 10, 13, 10, 170, 187]

/-- Claim C5 (missing Content-Length).  The claim says a response whose
headers hold no Content-Length is treated as an error, with no update
started and no body bytes written.  The code diverges: on the segment
`c5data` — headers terminated by `CRLFCRLF` with no Content-Length, then
two body bytes — `tcp_recv_callback` marks the headers complete, calls
`firmware_manager_start_update` with the zero-initialized length 0, enters
the body-receiving state and feeds the two body bytes to
`firmware_manager_write_chunk`. -/
theorem download_no_content_length_bug :
    strstr_idx c5data contentLengthBytes = none ∧
    tcp_process_header_segment dlInitCtx c5data =
      ({ headers_complete := true, content_length := 0, bytes_downloaded := 2,
         state := .DOWNLOAD_RECEIVING_BODY },
       [FmCall.startUpdate 0, FmCall.writeChunk [170, 187]]) := by
  constructor
  · decide
  · decide

end OpenTrickler
